import Mathlib

/-!
# CM3218 ambient light sensor driver

A shallow embedding of `kernel/drivers/input/misc/cm3218/cm3218.c`: the bounded-retry
I2C transport, the register codec, the ADC readout, the lux and threshold arithmetic and
the enable / disable / report control path (`control_and_report`).

The bus and the interrupt GPIO are an oracle (`Bus`) consulted in call order; every
hardware access and every input-subsystem call is appended to a chronological trace.
Machine integers are naturals with the truncation of the C type written out. Logging is
not modelled, and neither are the mutexes: requests are served one at a time.
-/

namespace CM3218

/-! ## Constants of the driver -/

def I2C_RETRY_COUNT : Nat := 10

def CONTROL_INT_ISR_REPORT : Nat := 0x00

def CONTROL_ALS : Nat := 0x01

/-- Percentage half-width of the threshold window (`#define CHANGE_SENSITIVITY 10`). -/
def CHANGE_SENSITIVITY : Nat := 10

/-- Value of the errno constant `EIO`. -/
def EIO_errno : Int := 5

/-- Value of the errno constant `ENOMEM`. -/
def ENOMEM_errno : Int := 12

/-- Register numbers and command-register flags declared in `cm3218.h`. The header is not
part of the sources, so its constants are parameters of the model. -/
structure Hdr where
  ALS_CMD : Nat
  ALS_HW : Nat
  ALS_LW : Nat
  ALS_READ : Nat
  CM3218_ALS_SD : Nat
  CM3218_ALS_INT_EN : Nat

/-! ## Environment: the bus, the interrupt line, the trace -/

/-- Behaviour of the hardware, indexed by call number: the return value of the n-th call
of `i2c_transfer`, the bytes it delivers into a read buffer, and the level returned by the
n-th call of `gpio_get_value`. -/
structure Bus where
  i2c_transfer : Nat → Int
  rx_data : Nat → Nat → Nat
  gpio_get_value : Nat → Int

/-- The message array handed to `i2c_transfer`. -/
inductive I2cMsgs
  | cmd_read (addr cmd len : Nat)
  | read (addr len : Nat)
  | write (addr : Nat) (data : List Nat)
  deriving DecidableEq

/-- Observable actions of the driver. -/
inductive Event
  | i2c (m : I2cMsgs)
  | gpio
  | msleep (ms : Nat)
  | input_report_abs (value : Int)
  | input_sync
  | enable_irq
  deriving DecidableEq

/-- Number of bus transfers and GPIO samples made so far, and the trace of actions. -/
structure World where
  xfers : Nat
  gpios : Nat
  trace : List Event
  deriving DecidableEq

def World.emit (w : World) (e : Event) : World :=
  { xfers := w.xfers, gpios := w.gpios, trace := w.trace ++ [e] }

def i2c_transfer (b : Bus) (m : I2cMsgs) (w : World) : Int × World :=
  (b.i2c_transfer w.xfers,
    { xfers := w.xfers + 1, gpios := w.gpios, trace := w.trace ++ [Event.i2c m] })

def gpio_get_value (b : Bus) (w : World) : Int × World :=
  (b.gpio_get_value w.gpios,
    { xfers := w.xfers, gpios := w.gpios + 1, trace := w.trace ++ [Event.gpio] })

def msleep (ms : Nat) (w : World) : World := w.emit (Event.msleep ms)

/-- Bytes a successful read transfer (call number `n`) leaves in a buffer of `len` bytes. -/
def rx_bytes (b : Bus) (n len : Nat) : List Nat :=
  (List.range len).map (fun j => b.rx_data n j % 256)

/-! ## Transport -/

/-- The retry loop that `I2C_RxData`, `I2C_RxData2` and `I2C_TxData` share word for word:
`for (loop_i = 0; loop_i < I2C_RETRY_COUNT; loop_i++)`, with `n` the number of iterations
left. Returns the value of `loop_i` at loop exit. -/
def i2c_retry_loop (b : Bus) (m : I2cMsgs) : Nat → Nat → World → Nat × World
  | 0, loop_i, w => (loop_i, w)
  | n + 1, loop_i, w =>
    let r := i2c_transfer b m w
    if r.1 > 0 then (loop_i, r.2)
    else
      let g := gpio_get_value b r.2
      i2c_retry_loop b m n (loop_i + 1) (msleep 10 g.2)

def I2C_RxData (b : Bus) (slaveAddr cmd : Nat) (rxData : List Nat) (length : Nat)
    (w : World) : Int × List Nat × World :=
  let r := i2c_retry_loop b (I2cMsgs.cmd_read slaveAddr cmd length) I2C_RETRY_COUNT 0 w
  if r.1 ≥ I2C_RETRY_COUNT then (- EIO_errno, rxData, r.2)
  else (0, rx_bytes b (r.2.xfers - 1) length, r.2)

def I2C_RxData2 (b : Bus) (slaveAddr : Nat) (rxData : List Nat) (length : Nat)
    (w : World) : Int × List Nat × World :=
  let r := i2c_retry_loop b (I2cMsgs.read slaveAddr length) I2C_RETRY_COUNT 0 w
  if r.1 ≥ I2C_RETRY_COUNT then (- EIO_errno, rxData, r.2)
  else (0, rx_bytes b (r.2.xfers - 1) length, r.2)

def I2C_TxData (b : Bus) (slaveAddr : Nat) (txData : List Nat) (w : World) : Int × World :=
  let r := i2c_retry_loop b (I2cMsgs.write slaveAddr txData) I2C_RETRY_COUNT 0 w
  if r.1 ≥ I2C_RETRY_COUNT then (- EIO_errno, r.2) else (0, r.2)

/-! ## Register codec -/

def _cm3218_I2C_Read_Byte (b : Bus) (slaveAddr : Nat) (pdata : Nat) (w : World) :
    Int × Nat × World :=
  let r := I2C_RxData2 b slaveAddr [0] 1 w
  if r.1 < 0 then (r.1, pdata, r.2.2) else (r.1, r.2.1.getD 0 0, r.2.2)

def _cm3218_I2C_Read_Word (b : Bus) (slaveAddr cmd : Nat) (pdata : Nat) (w : World) :
    Int × Nat × World :=
  let r := I2C_RxData b slaveAddr (cmd % 256) [0, 0] 2 w
  if r.1 < 0 then (r.1, pdata, r.2.2)
  else (r.1, ((r.2.1.getD 1 0 <<< 8) ||| r.2.1.getD 0 0) % 65536, r.2.2)

def _cm3218_I2C_Write_Word (b : Bus) (SlaveAddress cmd data : Nat) (w : World) :
    Int × World :=
  let buffer := [cmd % 256, data &&& 0xff, (data &&& 0xff00) >>> 8]
  let r := I2C_TxData b SlaveAddress buffer w
  if r.1 < 0 then (- EIO_errno, r.2) else (r.1, r.2)

/-! ## Device state -/

/-- The fields of `struct cm3218_info` that the control path reads or writes. -/
structure cm3218_info where
  als_enable : Nat
  als_resolution : Nat
  cal_data : Nat
  ALS_cmd_address : Nat
  check_interrupt_add : Nat
  current_lux_level : Nat
  current_adc : Nat
  is_cmd : Nat
  record_clear_int_fail : Nat
  deriving DecidableEq

/-- The C statement `x |= m` on a `uint16_t`. -/
def bit_or16 (x m : Nat) : Nat := (x ||| m) % 65536

/-- The C statement `x &= ~m` on a `uint16_t`. -/
def bit_clear16 (x m : Nat) : Nat := (x &&& (0xFFFF ^^^ (m % 65536))) % 65536

/-- Conversion of a `uint32_t` to `int`. -/
def int_of_u32 (x : Nat) : Int :=
  if x % 2 ^ 32 < 2 ^ 31 then (x % 2 ^ 32 : Nat) else (x % 2 ^ 32 : Nat) - 2 ^ 32

/-! ## Readout, lux and thresholds -/

def get_ls_adc_value (b : Bus) (h : Hdr) (lpi : cm3218_info) (als_step : Nat) (w : World) :
    Int × Nat × World :=
  let r := _cm3218_I2C_Read_Word b lpi.ALS_cmd_address h.ALS_READ als_step w
  if r.1 < 0 then (- EIO_errno, r.2.1, r.2.2) else (r.1, r.2.1, r.2.2)

def set_lsensor_range (b : Bus) (h : Hdr) (lpi : cm3218_info) (low_thd high_thd : Nat)
    (w : World) : Int × World :=
  let r1 := _cm3218_I2C_Write_Word b lpi.ALS_cmd_address h.ALS_HW high_thd w
  let r2 := _cm3218_I2C_Write_Word b lpi.ALS_cmd_address h.ALS_LW low_thd r1.2
  (0, r2.2)

/-- The expression
`(uint32_t)div64_u64((uint64_t)adc_value * lpi->als_resolution * lpi->cal_data,
(uint64_t)100000 * 100000)`. -/
def lux_level (adc_value als_resolution cal_data : Nat) : Nat :=
  (((adc_value * als_resolution) % 2 ^ 64 * cal_data) % 2 ^ 64
    / ((100000 * 100000) % 2 ^ 64)) % 2 ^ 32

/-- The expression `(uint16_t)((uint32_t)adc_value * (100 - CHANGE_SENSITIVITY) / 100)`. -/
def low_thd (adc_value : Nat) : Nat :=
  ((adc_value * (100 - CHANGE_SENSITIVITY)) % 2 ^ 32 / 100) % 2 ^ 16

/-- The expression `(uint32_t)adc_value * (100 + CHANGE_SENSITIVITY) / 100`, then
`if (high_thd > 65535) high_thd = 65535;`. -/
def high_thd (adc_value : Nat) : Nat :=
  let high := (adc_value * (100 + CHANGE_SENSITIVITY)) % 2 ^ 32 / 100
  if high > 65535 then 65535 else high

/-! ## Control path -/

/-- Lines 898-903 of `control_and_report`, repeated as lines 904-909: sample the interrupt
line and, when it is low, read the interrupt status byte; the outcome of that read is only
logged. -/
def check_interrupt (b : Bus) (lpi : cm3218_info) (w : World) : World :=
  let g := gpio_get_value b w
  if g.1 = 0 then (_cm3218_I2C_Read_Byte b lpi.check_interrupt_add 0 g.2).2.2 else g.2

/-- Lines 894-912 of `control_and_report`: one pass of the clear-interrupt loop up to the
write of the command word with `CM3218_ALS_INT_EN` cleared. Returns `ret`. -/
def clear_interrupt_once (b : Bus) (h : Hdr) (lpi : cm3218_info) (w : World) :
    Int × cm3218_info × World :=
  let g := gpio_get_value b w
  let w2 := check_interrupt b lpi (check_interrupt b lpi g.2)
  let lpi1 := { lpi with is_cmd := bit_clear16 lpi.is_cmd h.CM3218_ALS_INT_EN }
  let r := _cm3218_I2C_Write_Word b lpi1.ALS_cmd_address h.ALS_CMD lpi1.is_cmd w2
  (r.1, lpi1, r.2)

/-- Lines 893-928 of `control_and_report`: the `while (1)` loop that clears the interrupt.
`n` bounds the iterations left (the loop leaves once `fail_counter` reaches 10). The result
is `true` when the loop is left by `break` and `false` when it is left by
`goto error_clear_interrupt`. -/
def clear_interrupt_loop (b : Bus) (h : Hdr) :
    Nat → Nat → cm3218_info → World → Bool × cm3218_info × World
  | 0, _, lpi, w => (false, lpi, w)
  | n + 1, fail_counter, lpi, w =>
    let a := clear_interrupt_once b h lpi w
    if a.1 = 0 then (true, a.2.1, a.2.2)
    else
      let g := gpio_get_value b a.2.2
      if fail_counter + 1 ≥ 10 then
        (false,
          { a.2.1 with record_clear_int_fail :=
              if a.2.1.record_clear_int_fail = 0 then 1 else a.2.1.record_clear_int_fail },
          g.2)
      else clear_interrupt_loop b h n (fail_counter + 1) a.2.1 g.2

/-- Lines 930-943 of `control_and_report`: the shutdown bit and `als_enable` follow
`cmd_enable` in mode `CONTROL_ALS`; on enable an invalid reading (-1) is reported and the
sensor is given 100 ms. -/
def control_stage (b : Bus) (h : Hdr) (lpi : cm3218_info) (mode cmd_enable : Nat)
    (w : World) : cm3218_info × World :=
  let s : cm3218_info × World :=
    if mode = CONTROL_ALS then
      let cmd := if cmd_enable ≠ 0 then bit_clear16 lpi.is_cmd h.CM3218_ALS_SD
        else bit_or16 lpi.is_cmd h.CM3218_ALS_SD
      let r := _cm3218_I2C_Write_Word b lpi.ALS_cmd_address h.ALS_CMD cmd w
      ({ lpi with is_cmd := cmd, als_enable := cmd_enable }, r.2)
    else (lpi, w)
  if mode = CONTROL_ALS ∧ cmd_enable = 1 then
    (s.1, msleep 100 ((s.2.emit (Event.input_report_abs (-1))).emit Event.input_sync))
  else s

/-- Lines 945-966 of `control_and_report`: read the ADC (`adc_value` starts at 0 and the
result of `get_ls_adc_value` is not looked at), convert, program the thresholds, store
and report. -/
def report_stage (b : Bus) (h : Hdr) (lpi : cm3218_info) (w : World) :
    cm3218_info × World :=
  if lpi.als_enable ≠ 0 then
    let a := get_ls_adc_value b h lpi 0 w
    let adc_value := a.2.1
    let lux := lux_level adc_value lpi.als_resolution lpi.cal_data
    let cmd := bit_or16 lpi.is_cmd h.CM3218_ALS_INT_EN
    let t := set_lsensor_range b h lpi (low_thd adc_value) (high_thd adc_value % 65536) a.2.2
    ({ lpi with is_cmd := cmd, current_lux_level := lux, current_adc := adc_value },
      (t.2.emit (Event.input_report_abs (int_of_u32 lux))).emit Event.input_sync)
  else (lpi, w)

def control_and_report (b : Bus) (h : Hdr) (lpi : cm3218_info) (mode cmd_enable : Nat)
    (w : World) : Int × cm3218_info × World :=
  let c := clear_interrupt_loop b h 10 0 lpi w
  if c.1 = false then (- ENOMEM_errno, c.2.1, c.2.2)
  else
    let s := control_stage b h c.2.1 mode cmd_enable c.2.2
    let p := report_stage b h s.1 s.2
    let r := _cm3218_I2C_Write_Word b p.1.ALS_cmd_address h.ALS_CMD p.1.is_cmd p.2
    (r.1, p.1, r.2)

def lightsensor_enable (b : Bus) (h : Hdr) (lpi : cm3218_info) (w : World) :
    Int × cm3218_info × World :=
  if lpi.als_enable ≠ 0 then (0, lpi, w)
  else control_and_report b h lpi CONTROL_ALS 1 w

def lightsensor_disable (b : Bus) (h : Hdr) (lpi : cm3218_info) (w : World) :
    Int × cm3218_info × World :=
  if lpi.als_enable = 0 then (0, lpi, w)
  else control_and_report b h lpi CONTROL_ALS 0 w

def sensor_irq_do_work (b : Bus) (h : Hdr) (lpi : cm3218_info) (w : World) :
    cm3218_info × World :=
  let r := control_and_report b h lpi CONTROL_INT_ISR_REPORT 0 w
  (r.2.1, r.2.2.emit Event.enable_irq)

def ls_initial_cmd (b : Bus) (h : Hdr) (lpi : cm3218_info) (w : World) :
    cm3218_info × World :=
  let cmd := bit_or16 lpi.is_cmd h.CM3218_ALS_SD
  ({ lpi with is_cmd := cmd },
    (_cm3218_I2C_Write_Word b lpi.ALS_cmd_address h.ALS_CMD cmd w).2)

/-! ## Vocabulary of the claims -/

/-- Number of `i2c_transfer` calls made between two worlds. -/
def attempts (w w' : World) : Nat := w'.xfers - w.xfers

/-- The actions appended to the trace between two worlds. -/
def newEvents (w w' : World) : List Event := w'.trace.drop w.trace.length

/-- A transfer that reads the ADC data register (the two-message transfer of
`I2C_RxData` with command `ALS_READ`). -/
def Event.is_adc_read (h : Hdr) : Event → Bool
  | Event.i2c (I2cMsgs.cmd_read _ cmd _) => cmd = h.ALS_READ % 256
  | _ => false

/-- A transfer that writes the high or the low threshold register. -/
def Event.is_threshold_write (h : Hdr) : Event → Bool
  | Event.i2c (I2cMsgs.write _ (c :: _)) => c = h.ALS_HW % 256 || c = h.ALS_LW % 256
  | _ => false

/-- A reading (valid or not) handed to the input subsystem. -/
def Event.is_input_report : Event → Bool
  | Event.input_report_abs _ => true
  | _ => false

/-- Any bus transfer. -/
def Event.is_i2c : Event → Bool
  | Event.i2c _ => true
  | _ => false

/-- The actions of the clear-interrupt loop and of the command-register writes: GPIO
samples, back-off sleeps, the diagnostic status read and writes of register `ALS_CMD`. -/
def Event.is_quiet (h : Hdr) : Event → Bool
  | Event.gpio => true
  | Event.msleep _ => true
  | Event.i2c (I2cMsgs.read _ _) => true
  | Event.i2c (I2cMsgs.write _ (c :: _)) => c = h.ALS_CMD % 256
  | _ => false

/-- The second world continues the trace of the first with actions that all satisfy `Q`. -/
def Emits (Q : Event → Bool) (w w' : World) : Prop :=
  ∃ es, w'.trace = w.trace ++ es ∧ ∀ e ∈ es, Q e = true

/-- Accepts every action: `Emits any_event w w'` says that the trace of `w'` continues the
trace of `w`. -/
def any_event : Event → Bool := fun _ => true

/-- The shutdown flag of the command word is set (`is_cmd & CM3218_ALS_SD` is non-zero). -/
def shutdown_bit_set (h : Hdr) (lpi : cm3218_info) : Prop :=
  lpi.is_cmd &&& h.CM3218_ALS_SD ≠ 0

/-- The three requests served by the control path. -/
inductive Request
  | EnableRequest
  | DisableRequest
  | InterruptReport
  deriving DecidableEq

/-- Serve one request: `lightsensor_enable`, `lightsensor_disable`, or the deferred
interrupt work `sensor_irq_do_work`. -/
def serve (b : Bus) (h : Hdr) (r : Request) (s : cm3218_info × World) :
    cm3218_info × World :=
  match r with
  | Request.EnableRequest => (lightsensor_enable b h s.1 s.2).2
  | Request.DisableRequest => (lightsensor_disable b h s.1 s.2).2
  | Request.InterruptReport => sensor_irq_do_work b h s.1 s.2

/-- Serve a sequence of requests in order. -/
def serve_all (b : Bus) (h : Hdr) (rs : List Request) (s : cm3218_info × World) :
    cm3218_info × World :=
  rs.foldl (fun s r => serve b h r s) s

/-- Whether the clear-interrupt loop of a run of `control_and_report` is left by `break`
(a write of the command word succeeded) rather than after 10 failed writes. -/
def interrupt_cleared (b : Bus) (h : Hdr) (lpi : cm3218_info) (w : World) : Bool :=
  (clear_interrupt_loop b h 10 0 lpi w).1

/-- State and world of a run of `control_and_report` when the clear-interrupt loop is
left. -/
def at_cleared (b : Bus) (h : Hdr) (lpi : cm3218_info) (w : World) : cm3218_info × World :=
  (clear_interrupt_loop b h 10 0 lpi w).2

/-- State and world of a run of `control_and_report` at line 945, where the ADC is about
to be read. -/
def at_readout (b : Bus) (h : Hdr) (lpi : cm3218_info) (mode cmd_enable : Nat) (w : World) :
    cm3218_info × World :=
  control_stage b h (at_cleared b h lpi w).1 mode cmd_enable (at_cleared b h lpi w).2

/-- State and world of a run of `control_and_report` at line 968, where the command word
is about to be written back. -/
def at_rearm (b : Bus) (h : Hdr) (lpi : cm3218_info) (mode cmd_enable : Nat) (w : World) :
    cm3218_info × World :=
  report_stage b h (at_readout b h lpi mode cmd_enable w).1
    (at_readout b h lpi mode cmd_enable w).2

/-- The value of `high_thd` before the clamp: the expression
`(uint32_t)adc_value * (100 + CHANGE_SENSITIVITY) / 100` of line 955. -/
def high_thd_unclamped (adc_value : Nat) : Nat :=
  (adc_value * (100 + CHANGE_SENSITIVITY)) % 2 ^ 32 / 100

/-- The resolution that `cm3218_probe` installs (`lpi->als_resolution = 1428;`). -/
def cm3218_probe_als_resolution : Nat := 1428

/-! ## Concrete inputs -/

/-- An instance of the header constants: command register 0x00, threshold registers 0x01
and 0x02, data register 0x04, shutdown flag bit 0, interrupt-enable flag bit 1. -/
def example_hdr : Hdr :=
  { ALS_CMD := 0x00, ALS_HW := 0x01, ALS_LW := 0x02, ALS_READ := 0x04,
    CM3218_ALS_SD := 1, CM3218_ALS_INT_EN := 2 }

/-- The world before any hardware access. -/
def fresh_world : World := { xfers := 0, gpios := 0, trace := [] }

/-- A bus on which every transfer fails; the interrupt line is high. -/
def bus_always_failing : Bus :=
  { i2c_transfer := fun _ => -5, rx_data := fun _ _ => 0, gpio_get_value := fun _ => 1 }

/-- A bus on which the first two transfers fail and every later one succeeds. -/
def bus_third_attempt : Bus :=
  { i2c_transfer := fun n => if n < 2 then -5 else 1, rx_data := fun _ _ => 0,
    gpio_get_value := fun _ => 0 }

/-- A bus on which transfers number 1 to 10 fail and all others succeed (transfer
number 0 is the first one); the interrupt line is high. -/
def bus_second_operation_fails : Bus :=
  { i2c_transfer := fun n => if 1 ≤ n ∧ n ≤ 10 then -5 else 1, rx_data := fun _ _ => 0xff,
    gpio_get_value := fun _ => 1 }

/-- A disabled device as left by the probe: shutdown flag set, readings 0. -/
def lpi_disabled : cm3218_info :=
  { als_enable := 0, als_resolution := 1428, cal_data := 2000000, ALS_cmd_address := 0x48,
    check_interrupt_add := 0x0C, current_lux_level := 0, current_adc := 0, is_cmd := 1,
    record_clear_int_fail := 0 }

/-- An enabled device holding a reading (adc 1000, lux 285) with the interrupt armed. -/
def lpi_enabled : cm3218_info :=
  { als_enable := 1, als_resolution := 1428, cal_data := 2000000, ALS_cmd_address := 0x48,
    check_interrupt_add := 0x0C, current_lux_level := 285, current_adc := 1000, is_cmd := 2,
    record_clear_int_fail := 0 }

/-- A sequence of requests that enables, reports, disables and enables again. -/
def example_requests : List Request :=
  [Request.EnableRequest, Request.InterruptReport, Request.DisableRequest,
    Request.EnableRequest, Request.EnableRequest]

/-! ## Transport: the retry loop -/

theorem msleep_xfers (ms : Nat) (w : World) : (msleep ms w).xfers = w.xfers := rfl

theorem gpio_get_value_xfers (b : Bus) (w : World) : (gpio_get_value b w).2.xfers = w.xfers := rfl

theorem i2c_retry_loop_all_fail (b : Bus) (m : I2cMsgs) :
    ∀ (n loop_i : Nat) (w : World),
      (∀ i, i < n → b.i2c_transfer (w.xfers + i) ≤ 0) →
      (i2c_retry_loop b m n loop_i w).1 = loop_i + n ∧
        (i2c_retry_loop b m n loop_i w).2.xfers = w.xfers + n := by
  intro n
  induction n with
  | zero => intro loop_i w _; simp [i2c_retry_loop]
  | succ n ih =>
    intro loop_i w hf
    have h0 : ¬ (b.i2c_transfer w.xfers > 0) := by
      have := hf 0 (Nat.succ_pos n)
      simpa using this
    have hrec := ih (loop_i + 1) (msleep 10 (gpio_get_value b (i2c_transfer b m w).2).2)
      (by
        intro i hi
        have := hf (i + 1) (by omega)
        simpa [msleep_xfers, gpio_get_value_xfers, i2c_transfer, Nat.add_assoc, Nat.add_comm 1 i]
          using this)
    have hx : (msleep 10 (gpio_get_value b (i2c_transfer b m w).2).2).xfers = w.xfers + 1 := rfl
    rw [i2c_retry_loop]
    simp only [show (i2c_transfer b m w).1 = b.i2c_transfer w.xfers from rfl, h0, if_false]
    rw [hrec.1, hrec.2, hx]
    constructor <;> omega

theorem i2c_retry_loop_first_success (b : Bus) (m : I2cMsgs) :
    ∀ (n k loop_i : Nat) (w : World), k < n →
      (∀ i, i < k → b.i2c_transfer (w.xfers + i) ≤ 0) →
      0 < b.i2c_transfer (w.xfers + k) →
      (i2c_retry_loop b m n loop_i w).1 = loop_i + k ∧
        (i2c_retry_loop b m n loop_i w).2.xfers = w.xfers + k + 1 := by
  intro n
  induction n with
  | zero => intro k loop_i w hk; omega
  | succ n ih =>
    intro k loop_i w hk hf hs
    rw [i2c_retry_loop]
    cases k with
    | zero =>
      have h0 : b.i2c_transfer w.xfers > 0 := by simpa using hs
      simp only [show (i2c_transfer b m w).1 = b.i2c_transfer w.xfers from rfl, h0, if_true]
      exact ⟨rfl, rfl⟩
    | succ k =>
      have h0 : ¬ (b.i2c_transfer w.xfers > 0) := by
        have := hf 0 (Nat.succ_pos k)
        simpa using this
      have hrec := ih k (loop_i + 1) (msleep 10 (gpio_get_value b (i2c_transfer b m w).2).2)
        (by omega)
        (by
          intro i hi
          have := hf (i + 1) (by omega)
          simpa [msleep_xfers, gpio_get_value_xfers, i2c_transfer, Nat.add_assoc,
            Nat.add_comm 1 i] using this)
        (by
          simpa [msleep_xfers, gpio_get_value_xfers, i2c_transfer, Nat.add_assoc,
            Nat.add_comm 1 k] using hs)
      have hx : (msleep 10 (gpio_get_value b (i2c_transfer b m w).2).2).xfers = w.xfers + 1 := rfl
      simp only [show (i2c_transfer b m w).1 = b.i2c_transfer w.xfers from rfl, h0, if_false]
      rw [hrec.1, hrec.2, hx]
      constructor <;> omega

theorem i2c_retry_loop_gpio_irrelevant (b b' : Bus) (m : I2cMsgs)
    (hb : b'.i2c_transfer = b.i2c_transfer) :
    ∀ (n loop_i : Nat) (w : World),
      i2c_retry_loop b' m n loop_i w = i2c_retry_loop b m n loop_i w := by
  intro n
  induction n with
  | zero => intro loop_i w; rfl
  | succ n ih =>
    intro loop_i w
    rw [i2c_retry_loop, i2c_retry_loop]
    simp only [i2c_transfer, gpio_get_value, hb]
    split
    · rfl
    · exact ih _ _

/-! ## Traces -/

theorem Emits.refl (Q : Event → Bool) (w : World) : Emits Q w w :=
  ⟨[], by simp, by simp⟩

theorem Emits.trans {Q : Event → Bool} {w1 w2 w3 : World} (h12 : Emits Q w1 w2)
    (h23 : Emits Q w2 w3) : Emits Q w1 w3 := by
  obtain ⟨es1, h1, q1⟩ := h12
  obtain ⟨es2, h2, q2⟩ := h23
  refine ⟨es1 ++ es2, by rw [h2, h1, List.append_assoc], ?_⟩
  intro e he
  rcases List.mem_append.mp he with he | he
  · exact q1 e he
  · exact q2 e he

theorem Emits.mono {Q Q' : Event → Bool} {w w' : World} (hq : ∀ e, Q e = true → Q' e = true)
    (h : Emits Q w w') : Emits Q' w w' := by
  obtain ⟨es, h1, q1⟩ := h
  exact ⟨es, h1, fun e he => hq e (q1 e he)⟩

theorem Emits.emit {Q : Event → Bool} (w : World) (e : Event) (he : Q e = true) :
    Emits Q w (w.emit e) :=
  ⟨[e], rfl, by simpa using he⟩

theorem Emits.forall_new {Q : Event → Bool} {w w' : World} (h : Emits Q w w') :
    ∀ e ∈ newEvents w w', Q e = true := by
  obtain ⟨es, h1, q1⟩ := h
  intro e he
  apply q1
  simpa [CM3218.newEvents, h1] using he

theorem emits_i2c_transfer {Q : Event → Bool} (b : Bus) (m : I2cMsgs) (w : World)
    (hm : Q (Event.i2c m) = true) : Emits Q w (i2c_transfer b m w).2 :=
  ⟨[Event.i2c m], rfl, by simpa using hm⟩

theorem emits_gpio_get_value {Q : Event → Bool} (b : Bus) (w : World)
    (hg : Q Event.gpio = true) : Emits Q w (gpio_get_value b w).2 :=
  ⟨[Event.gpio], rfl, by simpa using hg⟩

theorem emits_i2c_retry_loop {Q : Event → Bool} (b : Bus) (m : I2cMsgs)
    (hm : Q (Event.i2c m) = true) (hg : Q Event.gpio = true)
    (hs : Q (Event.msleep 10) = true) :
    ∀ (n loop_i : Nat) (w : World), Emits Q w (i2c_retry_loop b m n loop_i w).2 := by
  intro n
  induction n with
  | zero => intro loop_i w; exact Emits.refl Q w
  | succ n ih =>
    intro loop_i w
    rw [i2c_retry_loop]
    have h1 := emits_i2c_transfer b m w hm
    split
    · exact h1
    · exact (h1.trans (emits_gpio_get_value b _ hg)).trans
        ((Emits.emit _ _ hs).trans (ih _ _))

/-! ## Bit operations on the command word -/

theorem testBit_mod_65536 (x i : Nat) :
    (x % 65536).testBit i = (decide (i < 16) && x.testBit i) :=
  Nat.testBit_mod_two_pow x 16 i

theorem testBit_65535 (i : Nat) : (65535 : Nat).testBit i = decide (i < 16) :=
  Nat.testBit_two_pow_sub_one 16 i

theorem testBit_bit_clear16 (x m i : Nat) :
    (bit_clear16 x m).testBit i = (decide (i < 16) && (x.testBit i && !m.testBit i)) := by
  unfold bit_clear16
  rw [testBit_mod_65536, Nat.testBit_and, Nat.testBit_xor, testBit_mod_65536, testBit_65535]
  cases decide (i < 16) <;> cases x.testBit i <;> cases m.testBit i <;> rfl

theorem testBit_bit_or16 (x m i : Nat) :
    (bit_or16 x m).testBit i = (decide (i < 16) && (x.testBit i || m.testBit i)) := by
  unfold bit_or16
  rw [testBit_mod_65536, Nat.testBit_or]

theorem bit_clear16_idem (x m : Nat) : bit_clear16 (bit_clear16 x m) m = bit_clear16 x m := by
  apply Nat.eq_of_testBit_eq
  intro i
  rw [testBit_bit_clear16, testBit_bit_clear16]
  cases decide (i < 16) <;> cases x.testBit i <;> cases m.testBit i <;> rfl

theorem testBit_of_lt_65536 {s : Nat} (hs : s < 65536) (i : Nat) (hi : s.testBit i = true) :
    decide (i < 16) = true := by
  by_contra hcon
  have h16 : 16 ≤ i := by simpa using hcon
  have : s < 2 ^ i := lt_of_lt_of_le hs (by
    calc (65536 : Nat) = 2 ^ 16 := by norm_num
      _ ≤ 2 ^ i := Nat.pow_le_pow_right (by norm_num) h16)
  rw [Nat.testBit_lt_two_pow this] at hi
  exact Bool.false_ne_true hi

theorem testBit_disjoint {s m : Nat} (hd : s &&& m = 0) (i : Nat) (hs : s.testBit i = true) :
    m.testBit i = false := by
  have := congrArg (fun x => Nat.testBit x i) hd
  simp only [Nat.testBit_and, Nat.zero_testBit, hs, Bool.true_and] at this
  exact this

theorem and_bit_clear16_other {s m : Nat} (hs : s < 65536) (hd : s &&& m = 0) (x : Nat) :
    bit_clear16 x m &&& s = x &&& s := by
  apply Nat.eq_of_testBit_eq
  intro i
  rw [Nat.testBit_and, Nat.testBit_and, testBit_bit_clear16]
  cases hsi : s.testBit i
  · simp
  · rw [testBit_of_lt_65536 hs i hsi, testBit_disjoint hd i hsi]
    simp

theorem and_bit_or16_other {s m : Nat} (hs : s < 65536) (hd : s &&& m = 0) (x : Nat) :
    bit_or16 x m &&& s = x &&& s := by
  apply Nat.eq_of_testBit_eq
  intro i
  rw [Nat.testBit_and, Nat.testBit_and, testBit_bit_or16]
  cases hsi : s.testBit i
  · simp
  · rw [testBit_of_lt_65536 hs i hsi, testBit_disjoint hd i hsi]
    simp

theorem and_bit_or16_self {s : Nat} (hs : s < 65536) (x : Nat) : bit_or16 x s &&& s = s := by
  apply Nat.eq_of_testBit_eq
  intro i
  rw [Nat.testBit_and, testBit_bit_or16]
  cases hsi : s.testBit i
  · simp
  · rw [testBit_of_lt_65536 hs i hsi]
    simp

theorem and_bit_clear16_self (s x : Nat) : bit_clear16 x s &&& s = 0 := by
  apply Nat.eq_of_testBit_eq
  intro i
  rw [Nat.testBit_and, testBit_bit_clear16]
  cases decide (i < 16) <;> cases x.testBit i <;> cases s.testBit i <;> simp

/-! ## Transport and codec: what they add to the trace -/

theorem emits_I2C_TxData {Q : Event → Bool} (b : Bus) (slaveAddr : Nat) (txData : List Nat)
    (w : World) (hm : Q (Event.i2c (I2cMsgs.write slaveAddr txData)) = true)
    (hg : Q Event.gpio = true) (hs : Q (Event.msleep 10) = true) :
    Emits Q w (I2C_TxData b slaveAddr txData w).2 := by
  unfold I2C_TxData
  have := emits_i2c_retry_loop b _ hm hg hs I2C_RETRY_COUNT 0 w
  simp only []
  split <;> exact this

theorem emits_I2C_RxData2 {Q : Event → Bool} (b : Bus) (slaveAddr : Nat) (rxData : List Nat)
    (length : Nat) (w : World) (hm : Q (Event.i2c (I2cMsgs.read slaveAddr length)) = true)
    (hg : Q Event.gpio = true) (hs : Q (Event.msleep 10) = true) :
    Emits Q w (I2C_RxData2 b slaveAddr rxData length w).2.2 := by
  unfold I2C_RxData2
  have := emits_i2c_retry_loop b _ hm hg hs I2C_RETRY_COUNT 0 w
  simp only []
  split <;> exact this

theorem emits_I2C_RxData {Q : Event → Bool} (b : Bus) (slaveAddr cmd : Nat)
    (rxData : List Nat) (length : Nat) (w : World)
    (hm : Q (Event.i2c (I2cMsgs.cmd_read slaveAddr cmd length)) = true)
    (hg : Q Event.gpio = true) (hs : Q (Event.msleep 10) = true) :
    Emits Q w (I2C_RxData b slaveAddr cmd rxData length w).2.2 := by
  unfold I2C_RxData
  have := emits_i2c_retry_loop b _ hm hg hs I2C_RETRY_COUNT 0 w
  simp only []
  split <;> exact this

theorem emits_Read_Byte {Q : Event → Bool} (b : Bus) (slaveAddr pdata : Nat) (w : World)
    (hm : Q (Event.i2c (I2cMsgs.read slaveAddr 1)) = true)
    (hg : Q Event.gpio = true) (hs : Q (Event.msleep 10) = true) :
    Emits Q w (_cm3218_I2C_Read_Byte b slaveAddr pdata w).2.2 := by
  unfold _cm3218_I2C_Read_Byte
  have := emits_I2C_RxData2 b slaveAddr [0] 1 w hm hg hs
  simp only []
  split <;> exact this

theorem emits_Read_Word {Q : Event → Bool} (b : Bus) (slaveAddr cmd pdata : Nat) (w : World)
    (hm : Q (Event.i2c (I2cMsgs.cmd_read slaveAddr (cmd % 256) 2)) = true)
    (hg : Q Event.gpio = true) (hs : Q (Event.msleep 10) = true) :
    Emits Q w (_cm3218_I2C_Read_Word b slaveAddr cmd pdata w).2.2 := by
  unfold _cm3218_I2C_Read_Word
  have := emits_I2C_RxData b slaveAddr (cmd % 256) [0, 0] 2 w hm hg hs
  simp only []
  split <;> exact this

theorem emits_Write_Word {Q : Event → Bool} (b : Bus) (SlaveAddress cmd data : Nat)
    (w : World)
    (hm : ∀ d, Q (Event.i2c (I2cMsgs.write SlaveAddress (cmd % 256 :: d))) = true)
    (hg : Q Event.gpio = true) (hs : Q (Event.msleep 10) = true) :
    Emits Q w (_cm3218_I2C_Write_Word b SlaveAddress cmd data w).2 := by
  unfold _cm3218_I2C_Write_Word
  have := emits_I2C_TxData b SlaveAddress
    [cmd % 256, data &&& 0xff, (data &&& 0xff00) >>> 8] w (hm _) hg hs
  simp only []
  split <;> exact this

theorem quiet_write_cmd (h : Hdr) (a : Nat) (d : List Nat) :
    Event.is_quiet h (Event.i2c (I2cMsgs.write a (h.ALS_CMD % 256 :: d))) = true := by
  simp [Event.is_quiet]

/-! ## The clear-interrupt loop -/

theorem emits_check_interrupt (b : Bus) (h : Hdr) (lpi : cm3218_info) (w : World) :
    Emits (Event.is_quiet h) w (check_interrupt b lpi w) := by
  unfold check_interrupt
  simp only []
  have hg := emits_gpio_get_value (Q := Event.is_quiet h) b w rfl
  split
  · exact hg.trans (emits_Read_Byte b _ _ _ rfl rfl rfl)
  · exact hg

theorem emits_clear_interrupt_once (b : Bus) (h : Hdr) (lpi : cm3218_info) (w : World) :
    Emits (Event.is_quiet h) w (clear_interrupt_once b h lpi w).2.2 := by
  unfold clear_interrupt_once
  simp only []
  exact (((emits_gpio_get_value b w rfl).trans (emits_check_interrupt b h lpi _)).trans
    (emits_check_interrupt b h lpi _)).trans
    (emits_Write_Word b _ _ _ _ (quiet_write_cmd h _) rfl rfl)

theorem clear_interrupt_once_lpi (b : Bus) (h : Hdr) (lpi : cm3218_info) (w : World) :
    (clear_interrupt_once b h lpi w).2.1 =
      { lpi with is_cmd := bit_clear16 lpi.is_cmd h.CM3218_ALS_INT_EN } := rfl

theorem emits_clear_interrupt_loop (b : Bus) (h : Hdr) :
    ∀ (n fail_counter : Nat) (lpi : cm3218_info) (w : World),
      Emits (Event.is_quiet h) w (clear_interrupt_loop b h n fail_counter lpi w).2.2 := by
  intro n
  induction n with
  | zero => intro fc lpi w; exact Emits.refl _ w
  | succ n ih =>
    intro fc lpi w
    rw [clear_interrupt_loop]
    simp only []
    have h1 := emits_clear_interrupt_once b h lpi w
    have h2 := h1.trans (emits_gpio_get_value b (clear_interrupt_once b h lpi w).2.2 rfl)
    split
    · exact h1
    · split
      · exact h2
      · exact h2.trans (ih _ _ _)

theorem clear_interrupt_loop_lpi (b : Bus) (h : Hdr) :
    ∀ (n fail_counter : Nat) (lpi : cm3218_info) (w : World),
      0 < n → 10 ≤ n + fail_counter →
      (clear_interrupt_loop b h n fail_counter lpi w).2.1 =
        { lpi with
          is_cmd := bit_clear16 lpi.is_cmd h.CM3218_ALS_INT_EN
          record_clear_int_fail :=
            if (clear_interrupt_loop b h n fail_counter lpi w).1 = true then
              lpi.record_clear_int_fail
            else if lpi.record_clear_int_fail = 0 then 1 else lpi.record_clear_int_fail } := by
  intro n
  induction n with
  | zero => intro fc lpi w hn; omega
  | succ n ih =>
    intro fc lpi w _ hfc
    rw [clear_interrupt_loop]
    simp only []
    split
    · simp [clear_interrupt_once_lpi]
    · split
      · simp [clear_interrupt_once_lpi]
      · rw [ih _ _ _ (by omega) (by omega)]
        simp [clear_interrupt_once_lpi, bit_clear16_idem]

/-- The bound `n` of `clear_interrupt_loop` is never what ends the loop: once
`n + fail_counter` is at least 10 a larger bound gives the same result, so the result of
`clear_interrupt_loop b h 10 0` is that of the unbounded `while (1)`. -/
theorem clear_interrupt_loop_bound (b : Bus) (h : Hdr) :
    ∀ (n fail_counter : Nat) (lpi : cm3218_info) (w : World),
      0 < n → 10 ≤ n + fail_counter →
      clear_interrupt_loop b h (n + 1) fail_counter lpi w =
        clear_interrupt_loop b h n fail_counter lpi w := by
  intro n
  induction n with
  | zero => intro fc lpi w hn; omega
  | succ n ih =>
    intro fc lpi w _ hfc
    rw [clear_interrupt_loop]
    conv_rhs => rw [clear_interrupt_loop]
    simp only []
    split
    · rfl
    · split
      · rfl
      · exact ih _ _ _ (by omega) (by omega)

/-! ## The stages of `control_and_report` -/

theorem Emits.follows {Q : Event → Bool} {w w' : World} (h : Emits Q w w') :
    Emits any_event w w' :=
  h.mono (fun _ _ => rfl)

theorem mem_newEvents_of_mid {w1 w2 w3 w4 : World} {e : Event}
    (h12 : Emits any_event w1 w2) (h23 : Emits any_event w2 w3) (h34 : Emits any_event w3 w4)
    (he : e ∈ newEvents w2 w3) : e ∈ newEvents w1 w4 := by
  obtain ⟨es1, h1, _⟩ := h12
  obtain ⟨es2, h2, _⟩ := h23
  obtain ⟨es3, h3, _⟩ := h34
  have : e ∈ es2 := by simpa [newEvents, h2] using he
  simp [newEvents, h3, h2, h1, this]

theorem first_event_i2c_retry_loop (b : Bus) (m : I2cMsgs) (n loop_i : Nat) (w : World) :
    Event.i2c m ∈ newEvents w (i2c_retry_loop b m (n + 1) loop_i w).2 := by
  rw [i2c_retry_loop]
  simp only []
  have h1 : Event.i2c m ∈ newEvents w (i2c_transfer b m w).2 := by
    simp [newEvents, i2c_transfer]
  split
  · exact h1
  · exact mem_newEvents_of_mid (Emits.refl _ w) (emits_i2c_transfer b m w rfl)
      ((emits_gpio_get_value b _ rfl).trans ((Emits.emit _ _ rfl).trans
        (emits_i2c_retry_loop b m rfl rfl rfl _ _ _))) h1

theorem first_event_Write_Word (b : Bus) (SlaveAddress cmd data : Nat) (w : World) :
    Event.i2c (I2cMsgs.write SlaveAddress [cmd % 256, data &&& 0xff, (data &&& 0xff00) >>> 8])
      ∈ newEvents w (_cm3218_I2C_Write_Word b SlaveAddress cmd data w).2 := by
  unfold _cm3218_I2C_Write_Word I2C_TxData
  simp only []
  have := first_event_i2c_retry_loop b
    (I2cMsgs.write SlaveAddress [cmd % 256, data &&& 0xff, (data &&& 0xff00) >>> 8]) 9 0 w
  split <;> split <;> exact this

theorem follows_Write_Word (b : Bus) (SlaveAddress cmd data : Nat) (w : World) :
    Emits any_event w (_cm3218_I2C_Write_Word b SlaveAddress cmd data w).2 :=
  emits_Write_Word b _ _ _ w (fun _ => rfl) rfl rfl

theorem follows_get_ls_adc_value (b : Bus) (h : Hdr) (lpi : cm3218_info) (als_step : Nat)
    (w : World) : Emits any_event w (get_ls_adc_value b h lpi als_step w).2.2 := by
  unfold get_ls_adc_value
  simp only []
  have := emits_Read_Word (Q := any_event) b lpi.ALS_cmd_address h.ALS_READ als_step w
    rfl rfl rfl
  split <;> exact this

theorem follows_set_lsensor_range (b : Bus) (h : Hdr) (lpi : cm3218_info)
    (low high : Nat) (w : World) :
    Emits any_event w (set_lsensor_range b h lpi low high w).2 :=
  (follows_Write_Word b _ _ _ w).trans (follows_Write_Word b _ _ _ _)

theorem follows_control_stage (b : Bus) (h : Hdr) (lpi : cm3218_info) (mode cmd_enable : Nat)
    (w : World) : Emits any_event w (control_stage b h lpi mode cmd_enable w).2 := by
  unfold control_stage
  simp only []
  have h1 : Emits any_event w
      (if mode = CONTROL_ALS then
        (({ lpi with
            is_cmd := if cmd_enable ≠ 0 then bit_clear16 lpi.is_cmd h.CM3218_ALS_SD
              else bit_or16 lpi.is_cmd h.CM3218_ALS_SD
            als_enable := cmd_enable } : cm3218_info),
          (_cm3218_I2C_Write_Word b lpi.ALS_cmd_address h.ALS_CMD
            (if cmd_enable ≠ 0 then bit_clear16 lpi.is_cmd h.CM3218_ALS_SD
              else bit_or16 lpi.is_cmd h.CM3218_ALS_SD) w).2)
      else (lpi, w)).2 := by
    split
    · exact follows_Write_Word b _ _ _ w
    · exact Emits.refl _ w
  split
  · exact h1.trans (((Emits.emit _ _ rfl).trans (Emits.emit _ _ rfl)).trans
      (Emits.emit _ _ rfl))
  · exact h1

theorem follows_report_stage (b : Bus) (h : Hdr) (lpi : cm3218_info) (w : World) :
    Emits any_event w (report_stage b h lpi w).2 := by
  unfold report_stage
  simp only []
  split
  · exact (((follows_get_ls_adc_value b h lpi 0 w).trans
      (follows_set_lsensor_range b h lpi _ _ _)).trans (Emits.emit _ _ rfl)).trans
      (Emits.emit _ _ rfl)
  · exact Emits.refl _ w

theorem report_stage_disabled (b : Bus) (h : Hdr) (lpi : cm3218_info) (w : World)
    (hd : lpi.als_enable = 0) : report_stage b h lpi w = (lpi, w) := by
  unfold report_stage
  simp [hd]

theorem control_stage_lpi (b : Bus) (h : Hdr) (lpi : cm3218_info) (mode cmd_enable : Nat)
    (w : World) :
    (control_stage b h lpi mode cmd_enable w).1 =
      if mode = CONTROL_ALS then
        { lpi with
          is_cmd := if cmd_enable ≠ 0 then bit_clear16 lpi.is_cmd h.CM3218_ALS_SD
            else bit_or16 lpi.is_cmd h.CM3218_ALS_SD
          als_enable := cmd_enable }
      else lpi := by
  unfold control_stage
  simp only []
  split <;> split <;> simp_all

theorem quiet_control_stage (b : Bus) (h : Hdr) (lpi : cm3218_info) (mode cmd_enable : Nat)
    (w : World) (hq : ¬ (mode = CONTROL_ALS ∧ cmd_enable = 1)) :
    Emits (Event.is_quiet h) w (control_stage b h lpi mode cmd_enable w).2 := by
  unfold control_stage
  simp only []
  rw [if_neg hq]
  split
  · exact emits_Write_Word b _ _ _ w (quiet_write_cmd h _) rfl rfl
  · exact Emits.refl _ w

theorem report_stage_lpi (b : Bus) (h : Hdr) (lpi : cm3218_info) (w : World)
    (he : lpi.als_enable ≠ 0) :
    (report_stage b h lpi w).1 =
      { lpi with
        is_cmd := bit_or16 lpi.is_cmd h.CM3218_ALS_INT_EN
        current_lux_level :=
          lux_level (get_ls_adc_value b h lpi 0 w).2.1 lpi.als_resolution lpi.cal_data
        current_adc := (get_ls_adc_value b h lpi 0 w).2.1 } := by
  unfold report_stage
  simp [he]

theorem get_ls_adc_value_failed (b : Bus) (h : Hdr) (lpi : cm3218_info) (als_step : Nat)
    (w : World) (hf : (get_ls_adc_value b h lpi als_step w).1 < 0) :
    (get_ls_adc_value b h lpi als_step w).2.1 = als_step := by
  unfold get_ls_adc_value at hf ⊢
  simp only [] at hf ⊢
  have hr : (_cm3218_I2C_Read_Word b lpi.ALS_cmd_address h.ALS_READ als_step w).1 < 0 := by
    by_contra hcon
    rw [if_neg hcon] at hf
    exact hcon hf
  rw [if_pos hr]
  unfold _cm3218_I2C_Read_Word at hr ⊢
  simp only [] at hr ⊢
  have hr2 : (I2C_RxData b lpi.ALS_cmd_address (h.ALS_READ % 256) [0, 0] 2 w).1 < 0 := by
    by_contra hcon
    rw [if_neg hcon] at hr
    exact hcon hr
  rw [if_pos hr2]

/-! ## `control_and_report` as a whole -/

theorem quiet_not_adc_read (h : Hdr) (e : Event) (hq : Event.is_quiet h e = true) :
    Event.is_adc_read h e = false := by
  unfold Event.is_quiet at hq
  unfold Event.is_adc_read
  split at hq <;> simp_all

theorem quiet_not_input_report (h : Hdr) (e : Event) (hq : Event.is_quiet h e = true) :
    Event.is_input_report e = false := by
  unfold Event.is_quiet at hq
  unfold Event.is_input_report
  split at hq <;> simp_all

theorem quiet_not_threshold_write (h : Hdr) (hhw : h.ALS_CMD % 256 ≠ h.ALS_HW % 256)
    (hlw : h.ALS_CMD % 256 ≠ h.ALS_LW % 256) (e : Event)
    (hq : Event.is_quiet h e = true) : Event.is_threshold_write h e = false := by
  unfold Event.is_quiet at hq
  unfold Event.is_threshold_write
  split at hq <;> simp_all

theorem control_and_report_failed (b : Bus) (h : Hdr) (lpi : cm3218_info)
    (mode cmd_enable : Nat) (w : World) (hc : interrupt_cleared b h lpi w = false) :
    control_and_report b h lpi mode cmd_enable w =
      (- ENOMEM_errno, (at_cleared b h lpi w).1, (at_cleared b h lpi w).2) := by
  unfold interrupt_cleared at hc
  unfold control_and_report at_cleared
  simp only []
  rw [if_pos hc]

theorem control_and_report_cleared (b : Bus) (h : Hdr) (lpi : cm3218_info)
    (mode cmd_enable : Nat) (w : World) (hc : interrupt_cleared b h lpi w = true) :
    control_and_report b h lpi mode cmd_enable w =
      ((_cm3218_I2C_Write_Word b (at_rearm b h lpi mode cmd_enable w).1.ALS_cmd_address
          h.ALS_CMD (at_rearm b h lpi mode cmd_enable w).1.is_cmd
          (at_rearm b h lpi mode cmd_enable w).2).1,
        (at_rearm b h lpi mode cmd_enable w).1,
        (_cm3218_I2C_Write_Word b (at_rearm b h lpi mode cmd_enable w).1.ALS_cmd_address
          h.ALS_CMD (at_rearm b h lpi mode cmd_enable w).1.is_cmd
          (at_rearm b h lpi mode cmd_enable w).2).2) := by
  unfold interrupt_cleared at hc
  unfold control_and_report at_rearm at_readout at_cleared
  simp only []
  rw [if_neg (by simp [hc])]

theorem at_cleared_lpi (b : Bus) (h : Hdr) (lpi : cm3218_info) (w : World) :
    (at_cleared b h lpi w).1 =
      { lpi with
        is_cmd := bit_clear16 lpi.is_cmd h.CM3218_ALS_INT_EN
        record_clear_int_fail :=
          if interrupt_cleared b h lpi w = true then lpi.record_clear_int_fail
          else if lpi.record_clear_int_fail = 0 then 1 else lpi.record_clear_int_fail } :=
  clear_interrupt_loop_lpi b h 10 0 lpi w (by decide) (by decide)

theorem follows_at_cleared (b : Bus) (h : Hdr) (lpi : cm3218_info) (w : World) :
    Emits (Event.is_quiet h) w (at_cleared b h lpi w).2 :=
  emits_clear_interrupt_loop b h 10 0 lpi w

theorem at_readout_lpi (b : Bus) (h : Hdr) (lpi : cm3218_info) (mode cmd_enable : Nat)
    (w : World) :
    (at_readout b h lpi mode cmd_enable w).1 =
      if mode = CONTROL_ALS then
        { (at_cleared b h lpi w).1 with
          is_cmd :=
            if cmd_enable ≠ 0 then
              bit_clear16 (at_cleared b h lpi w).1.is_cmd h.CM3218_ALS_SD
            else bit_or16 (at_cleared b h lpi w).1.is_cmd h.CM3218_ALS_SD
          als_enable := cmd_enable }
      else (at_cleared b h lpi w).1 :=
  control_stage_lpi b h _ mode cmd_enable _

theorem at_rearm_als_enable (b : Bus) (h : Hdr) (lpi : cm3218_info) (mode cmd_enable : Nat)
    (w : World) :
    (at_rearm b h lpi mode cmd_enable w).1.als_enable =
      if mode = CONTROL_ALS then cmd_enable else lpi.als_enable := by
  unfold at_rearm
  have h1 : (at_readout b h lpi mode cmd_enable w).1.als_enable =
      if mode = CONTROL_ALS then cmd_enable else lpi.als_enable := by
    rw [at_readout_lpi]
    by_cases hm : mode = CONTROL_ALS
    · rw [if_pos hm, if_pos hm]
    · rw [if_neg hm, if_neg hm, at_cleared_lpi]
  by_cases he : (at_readout b h lpi mode cmd_enable w).1.als_enable = 0
  · rw [report_stage_disabled b h _ _ he]
    exact h1
  · rw [report_stage_lpi b h _ _ he]
    exact h1

theorem at_rearm_shutdown (b : Bus) (h : Hdr) (hsd : h.CM3218_ALS_SD < 65536)
    (hdisj : h.CM3218_ALS_SD &&& h.CM3218_ALS_INT_EN = 0) (lpi : cm3218_info)
    (mode cmd_enable : Nat) (w : World) :
    (at_rearm b h lpi mode cmd_enable w).1.is_cmd &&& h.CM3218_ALS_SD =
      if mode = CONTROL_ALS then (if cmd_enable ≠ 0 then 0 else h.CM3218_ALS_SD)
      else lpi.is_cmd &&& h.CM3218_ALS_SD := by
  unfold at_rearm
  have h1 : (at_readout b h lpi mode cmd_enable w).1.is_cmd &&& h.CM3218_ALS_SD =
      if mode = CONTROL_ALS then (if cmd_enable ≠ 0 then 0 else h.CM3218_ALS_SD)
      else lpi.is_cmd &&& h.CM3218_ALS_SD := by
    rw [at_readout_lpi]
    by_cases hm : mode = CONTROL_ALS
    · rw [if_pos hm, if_pos hm]
      by_cases hce : cmd_enable ≠ 0
      · simp only [if_pos hce]
        exact and_bit_clear16_self _ _
      · simp only [if_neg hce]
        exact and_bit_or16_self hsd _
    · rw [if_neg hm, if_neg hm, at_cleared_lpi]
      exact and_bit_clear16_other hsd hdisj _
  by_cases he : (at_readout b h lpi mode cmd_enable w).1.als_enable = 0
  · rw [report_stage_disabled b h _ _ he]
    exact h1
  · rw [report_stage_lpi b h _ _ he]
    simp only []
    rw [and_bit_or16_other hsd hdisj]
    exact h1

theorem control_and_report_invariant (b : Bus) (h : Hdr) (hsd0 : h.CM3218_ALS_SD ≠ 0)
    (hsd : h.CM3218_ALS_SD < 65536)
    (hdisj : h.CM3218_ALS_SD &&& h.CM3218_ALS_INT_EN = 0) (lpi : cm3218_info)
    (mode cmd_enable : Nat) (w : World)
    (hinv : shutdown_bit_set h lpi ↔ lpi.als_enable = 0) :
    shutdown_bit_set h (control_and_report b h lpi mode cmd_enable w).2.1 ↔
      (control_and_report b h lpi mode cmd_enable w).2.1.als_enable = 0 := by
  unfold shutdown_bit_set at hinv ⊢
  cases hc : interrupt_cleared b h lpi w
  · rw [control_and_report_failed b h lpi mode cmd_enable w hc]
    simp only []
    rw [at_cleared_lpi]
    simp only []
    rw [and_bit_clear16_other hsd hdisj]
    exact hinv
  · rw [control_and_report_cleared b h lpi mode cmd_enable w hc]
    simp only []
    rw [at_rearm_shutdown b h hsd hdisj, at_rearm_als_enable]
    by_cases hm : mode = CONTROL_ALS
    · rw [if_pos hm, if_pos hm]
      by_cases hce : cmd_enable = 0
      · simp [hce, hsd0]
      · simp [hce]
    · rw [if_neg hm, if_neg hm]
      exact hinv

theorem serve_invariant (b : Bus) (h : Hdr) (hsd0 : h.CM3218_ALS_SD ≠ 0)
    (hsd : h.CM3218_ALS_SD < 65536)
    (hdisj : h.CM3218_ALS_SD &&& h.CM3218_ALS_INT_EN = 0) (r : Request)
    (s : cm3218_info × World) (hinv : shutdown_bit_set h s.1 ↔ s.1.als_enable = 0) :
    shutdown_bit_set h (serve b h r s).1 ↔ (serve b h r s).1.als_enable = 0 := by
  cases r with
  | EnableRequest =>
    show shutdown_bit_set h (lightsensor_enable b h s.1 s.2).2.1 ↔
      (lightsensor_enable b h s.1 s.2).2.1.als_enable = 0
    unfold lightsensor_enable
    split
    · exact hinv
    · exact control_and_report_invariant b h hsd0 hsd hdisj _ _ _ _ hinv
  | DisableRequest =>
    show shutdown_bit_set h (lightsensor_disable b h s.1 s.2).2.1 ↔
      (lightsensor_disable b h s.1 s.2).2.1.als_enable = 0
    unfold lightsensor_disable
    split
    · exact hinv
    · exact control_and_report_invariant b h hsd0 hsd hdisj _ _ _ _ hinv
  | InterruptReport =>
    show shutdown_bit_set h (sensor_irq_do_work b h s.1 s.2).1 ↔
      (sensor_irq_do_work b h s.1 s.2).1.als_enable = 0
    unfold sensor_irq_do_work
    exact control_and_report_invariant b h hsd0 hsd hdisj _ _ _ _ hinv

theorem serve_all_invariant (b : Bus) (h : Hdr) (hsd0 : h.CM3218_ALS_SD ≠ 0)
    (hsd : h.CM3218_ALS_SD < 65536)
    (hdisj : h.CM3218_ALS_SD &&& h.CM3218_ALS_INT_EN = 0) (rs : List Request) :
    ∀ s : cm3218_info × World, (shutdown_bit_set h s.1 ↔ s.1.als_enable = 0) →
      (shutdown_bit_set h (serve_all b h rs s).1 ↔ (serve_all b h rs s).1.als_enable = 0) := by
  induction rs with
  | nil => intro s hinv; exact hinv
  | cons r rs ih =>
    intro s hinv
    show shutdown_bit_set h (serve_all b h rs (serve b h r s)).1 ↔
      (serve_all b h rs (serve b h r s)).1.als_enable = 0
    exact ih _ (serve_invariant b h hsd0 hsd hdisj r s hinv)

theorem quiet_control_and_report_disable (b : Bus) (h : Hdr) (lpi : cm3218_info)
    (w : World) :
    Emits (Event.is_quiet h) w (control_and_report b h lpi CONTROL_ALS 0 w).2.2 := by
  cases hc : interrupt_cleared b h lpi w
  · rw [control_and_report_failed b h lpi _ _ w hc]
    exact follows_at_cleared b h lpi w
  · rw [control_and_report_cleared b h lpi _ _ w hc]
    simp only []
    have h1 : Emits (Event.is_quiet h) w (at_readout b h lpi CONTROL_ALS 0 w).2 :=
      (follows_at_cleared b h lpi w).trans
        (quiet_control_stage b h _ CONTROL_ALS 0 _ (by decide))
    have hd : (at_readout b h lpi CONTROL_ALS 0 w).1.als_enable = 0 := by
      rw [at_readout_lpi]
      rfl
    have h2 : at_rearm b h lpi CONTROL_ALS 0 w = at_readout b h lpi CONTROL_ALS 0 w := by
      unfold at_rearm
      rw [report_stage_disabled b h _ _ hd]
    rw [h2]
    exact h1.trans (emits_Write_Word b _ _ _ _ (quiet_write_cmd h _) rfl rfl)

theorem i2c_retry_loop_last (b : Bus) (m : I2cMsgs) :
    ∀ (n loop_i : Nat) (w : World), 0 < n →
      ((i2c_retry_loop b m n loop_i w).1 < loop_i + n ∧
          0 < b.i2c_transfer ((i2c_retry_loop b m n loop_i w).2.xfers - 1)) ∨
        ((i2c_retry_loop b m n loop_i w).1 = loop_i + n ∧
          b.i2c_transfer ((i2c_retry_loop b m n loop_i w).2.xfers - 1) ≤ 0) := by
  intro n
  induction n with
  | zero => intro loop_i w hn; omega
  | succ n ih =>
    intro loop_i w _
    rw [i2c_retry_loop]
    simp only []
    by_cases h0 : (i2c_transfer b m w).1 > 0
    · rw [if_pos h0]
      left
      exact ⟨by omega, h0⟩
    · rw [if_neg h0]
      rcases Nat.eq_zero_or_pos n with hn | hn
      · subst hn
        right
        exact ⟨rfl, not_lt.mp h0⟩
      · rcases ih (loop_i + 1) (msleep 10 (gpio_get_value b (i2c_transfer b m w).2).2) hn
          with ⟨h1, h2⟩ | ⟨h1, h2⟩
        · left
          exact ⟨by omega, h2⟩
        · right
          exact ⟨by omega, h2⟩

theorem Write_Word_result (b : Bus) (SlaveAddress cmd data : Nat) (w : World) :
    ((_cm3218_I2C_Write_Word b SlaveAddress cmd data w).1 = 0 ∧
        0 < b.i2c_transfer ((_cm3218_I2C_Write_Word b SlaveAddress cmd data w).2.xfers - 1)) ∨
      ((_cm3218_I2C_Write_Word b SlaveAddress cmd data w).1 = - EIO_errno ∧
        b.i2c_transfer ((_cm3218_I2C_Write_Word b SlaveAddress cmd data w).2.xfers - 1) ≤ 0) := by
  unfold _cm3218_I2C_Write_Word I2C_TxData
  simp only []
  rcases i2c_retry_loop_last b
      (I2cMsgs.write SlaveAddress [cmd % 256, data &&& 0xff, (data &&& 0xff00) >>> 8])
      I2C_RETRY_COUNT 0 w (by decide) with ⟨h1, h2⟩ | ⟨h1, h2⟩
  · left
    have hlt : ¬ ((i2c_retry_loop b
        (I2cMsgs.write SlaveAddress [cmd % 256, data &&& 0xff, (data &&& 0xff00) >>> 8])
        I2C_RETRY_COUNT 0 w).1 ≥ I2C_RETRY_COUNT) := by omega
    rw [if_neg hlt]
    exact ⟨by simp, by simpa using h2⟩
  · right
    have hge : (i2c_retry_loop b
        (I2cMsgs.write SlaveAddress [cmd % 256, data &&& 0xff, (data &&& 0xff00) >>> 8])
        I2C_RETRY_COUNT 0 w).1 ≥ I2C_RETRY_COUNT := by omega
    rw [if_pos hge]
    exact ⟨by simp [EIO_errno], by simpa [EIO_errno] using h2⟩

theorem follows_at_readout (b : Bus) (h : Hdr) (lpi : cm3218_info) (mode cmd_enable : Nat)
    (w : World) : Emits any_event w (at_readout b h lpi mode cmd_enable w).2 :=
  (follows_at_cleared b h lpi w).follows.trans (follows_control_stage b h _ mode cmd_enable _)

theorem at_readout_address (b : Bus) (h : Hdr) (lpi : cm3218_info) (mode cmd_enable : Nat)
    (w : World) :
    (at_readout b h lpi mode cmd_enable w).1.ALS_cmd_address = lpi.ALS_cmd_address := by
  rw [at_readout_lpi]
  by_cases hm : mode = CONTROL_ALS
  · rw [if_pos hm]
    show (at_cleared b h lpi w).1.ALS_cmd_address = lpi.ALS_cmd_address
    rw [at_cleared_lpi]
  · rw [if_neg hm, at_cleared_lpi]

theorem report_stage_world (b : Bus) (h : Hdr) (lpi : cm3218_info) (w : World)
    (he : lpi.als_enable ≠ 0) :
    (report_stage b h lpi w).2 =
      (((set_lsensor_range b h lpi (low_thd (get_ls_adc_value b h lpi 0 w).2.1)
          (high_thd (get_ls_adc_value b h lpi 0 w).2.1 % 65536)
          (get_ls_adc_value b h lpi 0 w).2.2).2.emit
        (Event.input_report_abs (int_of_u32
          (lux_level (get_ls_adc_value b h lpi 0 w).2.1 lpi.als_resolution
            lpi.cal_data)))).emit Event.input_sync) := by
  unfold report_stage
  simp [he]

theorem report_stage_zero_thresholds (b : Bus) (h : Hdr) (lpi : cm3218_info) (w : World)
    (he : lpi.als_enable ≠ 0) (hread : (get_ls_adc_value b h lpi 0 w).1 < 0) :
    Event.i2c (I2cMsgs.write lpi.ALS_cmd_address [h.ALS_HW % 256, 0, 0])
        ∈ newEvents w (report_stage b h lpi w).2 ∧
      Event.i2c (I2cMsgs.write lpi.ALS_cmd_address [h.ALS_LW % 256, 0, 0])
        ∈ newEvents w (report_stage b h lpi w).2 := by
  rw [report_stage_world b h lpi w he, get_ls_adc_value_failed b h lpi 0 w hread]
  have hhi : high_thd 0 % 65536 = 0 := by decide
  have hlo : low_thd 0 = 0 := by decide
  rw [hhi, hlo]
  unfold set_lsensor_range
  simp only []
  have e1 := first_event_Write_Word b lpi.ALS_cmd_address h.ALS_HW 0
    (get_ls_adc_value b h lpi 0 w).2.2
  have e2 := first_event_Write_Word b lpi.ALS_cmd_address h.ALS_LW 0
    (_cm3218_I2C_Write_Word b lpi.ALS_cmd_address h.ALS_HW 0
      (get_ls_adc_value b h lpi 0 w).2.2).2
  have z1 : (0 : Nat) &&& 0xff = 0 := by decide
  have z2 : ((0 : Nat) &&& 0xff00) >>> 8 = 0 := by decide
  rw [z1, z2] at e1 e2
  have f0 := follows_get_ls_adc_value b h lpi 0 w
  have f1 := follows_Write_Word b lpi.ALS_cmd_address h.ALS_HW 0
    (get_ls_adc_value b h lpi 0 w).2.2
  have f2 := follows_Write_Word b lpi.ALS_cmd_address h.ALS_LW 0
    (_cm3218_I2C_Write_Word b lpi.ALS_cmd_address h.ALS_HW 0
      (get_ls_adc_value b h lpi 0 w).2.2).2
  have f3 : ∀ w' : World, Emits any_event w'
      ((w'.emit (Event.input_report_abs (int_of_u32
        (lux_level 0 lpi.als_resolution lpi.cal_data)))).emit Event.input_sync) :=
    fun w' => (Emits.emit _ _ rfl).trans (Emits.emit _ _ rfl)
  exact ⟨mem_newEvents_of_mid f0 f1 (f2.trans (f3 _)) e1,
    mem_newEvents_of_mid (f0.trans f1) f2 (f3 _) e2⟩

/-- The probe leaves the shutdown flag set: `ls_initial_cmd` does `is_cmd |= CM3218_ALS_SD`
whatever the outcome of its write. -/
theorem ls_initial_cmd_shutdown (b : Bus) (h : Hdr) (hsd0 : h.CM3218_ALS_SD ≠ 0)
    (hsd : h.CM3218_ALS_SD < 65536) (lpi : cm3218_info) (w : World) :
    shutdown_bit_set h (ls_initial_cmd b h lpi w).1 ∧
      (ls_initial_cmd b h lpi w).1.als_enable = lpi.als_enable := by
  refine ⟨?_, rfl⟩
  unfold shutdown_bit_set ls_initial_cmd
  simp only []
  rw [and_bit_or16_self hsd]
  exact hsd0

/-! ## Lux and threshold arithmetic -/

theorem lux_level_mod (adc resolution calibration : Nat) :
    lux_level adc resolution calibration
      = (adc * resolution * calibration) % 2 ^ 64 / 10 ^ 10 := by
  unfold lux_level
  have hd : 100000 * 100000 % 2 ^ 64 = 10 ^ 10 := by norm_num
  rw [Nat.mod_mul_mod, hd]
  have hlt : (adc * resolution * calibration) % 2 ^ 64 / 10 ^ 10 < 2 ^ 32 := by
    have := Nat.mod_lt (adc * resolution * calibration) (show 0 < 2 ^ 64 by norm_num)
    omega
  rw [Nat.mod_eq_of_lt hlt]

theorem lux_level_exact (adc resolution calibration : Nat)
    (hp : adc * resolution * calibration < 2 ^ 64) :
    lux_level adc resolution calibration = adc * resolution * calibration / 10 ^ 10 := by
  rw [lux_level_mod, Nat.mod_eq_of_lt hp]

theorem lux_level_mono (adc1 adc2 resolution calibration : Nat) (hle : adc1 ≤ adc2)
    (hp : adc2 * resolution * calibration < 2 ^ 64) :
    lux_level adc1 resolution calibration ≤ lux_level adc2 resolution calibration := by
  have hm : adc1 * resolution * calibration ≤ adc2 * resolution * calibration :=
    Nat.mul_le_mul_right _ (Nat.mul_le_mul_right _ hle)
  rw [lux_level_exact adc2 resolution calibration hp,
    lux_level_exact adc1 resolution calibration (lt_of_le_of_lt hm hp)]
  exact Nat.div_le_div_right hm

theorem probe_resolution_no_wrap (adc calibration : Nat) (hadc : adc ≤ 65535)
    (hcal : calibration < 2 ^ 32) :
    adc * cm3218_probe_als_resolution * calibration ≤ 65535 * 1428 * 4294967295 := by
  unfold cm3218_probe_als_resolution
  exact Nat.mul_le_mul (Nat.mul_le_mul_right _ hadc) (by omega)

/-! ## The claims -/

set_option maxRecDepth 100000

/-- C1 fails as stated: an interrupt report on an enabled device holding adc = 1000 and
lux = 285, on a bus where the clear-interrupt write succeeds and the ten transfers of the
ADC read fail, overwrites both readings and writes the threshold registers. -/
theorem C1_counterexample :
    interrupt_cleared bus_second_operation_fails example_hdr lpi_enabled fresh_world = true ∧
    (at_readout bus_second_operation_fails example_hdr lpi_enabled CONTROL_INT_ISR_REPORT 0
      fresh_world).1.als_enable ≠ 0 ∧
    (get_ls_adc_value bus_second_operation_fails example_hdr
      (at_readout bus_second_operation_fails example_hdr lpi_enabled CONTROL_INT_ISR_REPORT 0
        fresh_world).1 0
      (at_readout bus_second_operation_fails example_hdr lpi_enabled CONTROL_INT_ISR_REPORT 0
        fresh_world).2).1 < 0 ∧
    (control_and_report bus_second_operation_fails example_hdr lpi_enabled
      CONTROL_INT_ISR_REPORT 0 fresh_world).2.1.current_adc ≠ lpi_enabled.current_adc ∧
    (control_and_report bus_second_operation_fails example_hdr lpi_enabled
      CONTROL_INT_ISR_REPORT 0 fresh_world).2.1.current_lux_level
        ≠ lpi_enabled.current_lux_level ∧
    (newEvents fresh_world
      (control_and_report bus_second_operation_fails example_hdr lpi_enabled
        CONTROL_INT_ISR_REPORT 0 fresh_world).2.2).any
      (Event.is_threshold_write example_hdr) = true := by
  decide

/-- C1 (amended): for every run of `control_and_report` in which the clear-interrupt
write succeeds and the device is enabled when the ADC is read, if the ADC read fails then
the sample is taken to be 0: `current_adc` and `current_lux_level` are both set to 0 and
the high and the low threshold register are each written with 0. -/
theorem C1_failed_readout (b : Bus) (h : Hdr) (lpi : cm3218_info) (mode cmd_enable : Nat)
    (w : World) (hc : interrupt_cleared b h lpi w = true)
    (hen : (at_readout b h lpi mode cmd_enable w).1.als_enable ≠ 0)
    (hread : (get_ls_adc_value b h (at_readout b h lpi mode cmd_enable w).1 0
      (at_readout b h lpi mode cmd_enable w).2).1 < 0) :
    (control_and_report b h lpi mode cmd_enable w).2.1.current_adc = 0 ∧
    (control_and_report b h lpi mode cmd_enable w).2.1.current_lux_level = 0 ∧
    Event.i2c (I2cMsgs.write lpi.ALS_cmd_address [h.ALS_HW % 256, 0, 0])
      ∈ newEvents w (control_and_report b h lpi mode cmd_enable w).2.2 ∧
    Event.i2c (I2cMsgs.write lpi.ALS_cmd_address [h.ALS_LW % 256, 0, 0])
      ∈ newEvents w (control_and_report b h lpi mode cmd_enable w).2.2 := by
  rw [control_and_report_cleared b h lpi mode cmd_enable w hc]
  simp only []
  have hlpi := report_stage_lpi b h _ (at_readout b h lpi mode cmd_enable w).2 hen
  have hadc := get_ls_adc_value_failed b h _ 0 _ hread
  have hev := report_stage_zero_thresholds b h _ _ hen hread
  rw [at_readout_address] at hev
  have f1 := follows_at_readout b h lpi mode cmd_enable w
  have f2 := follows_report_stage b h (at_readout b h lpi mode cmd_enable w).1
    (at_readout b h lpi mode cmd_enable w).2
  have f3 := follows_Write_Word b (at_rearm b h lpi mode cmd_enable w).1.ALS_cmd_address
    h.ALS_CMD (at_rearm b h lpi mode cmd_enable w).1.is_cmd
    (at_rearm b h lpi mode cmd_enable w).2
  refine ⟨?_, ?_, mem_newEvents_of_mid f1 f2 f3 hev.1, mem_newEvents_of_mid f1 f2 f3 hev.2⟩
  · unfold at_rearm
    rw [hlpi]
    exact hadc
  · unfold at_rearm
    rw [hlpi]
    simp only []
    rw [hadc]
    simp [lux_level]

/-- C1 (amended), for an interrupt report on the bus where only transfers 1 to 10 (the ADC
read) fail. -/
theorem C1_failed_readout_witness :
    (control_and_report bus_second_operation_fails example_hdr lpi_enabled
      CONTROL_INT_ISR_REPORT 0 fresh_world).2.1.current_adc = 0 ∧
    (control_and_report bus_second_operation_fails example_hdr lpi_enabled
      CONTROL_INT_ISR_REPORT 0 fresh_world).2.1.current_lux_level = 0 :=
  ⟨(C1_failed_readout bus_second_operation_fails example_hdr lpi_enabled
      CONTROL_INT_ISR_REPORT 0 fresh_world (by decide) (by decide) (by decide)).1,
    (C1_failed_readout bus_second_operation_fails example_hdr lpi_enabled
      CONTROL_INT_ISR_REPORT 0 fresh_world (by decide) (by decide) (by decide)).2.1⟩

/-- C2 fails as stated: an interrupt report on an enabled device whose command word has the
interrupt-enable flag set (is_cmd = 2), on a bus where every transfer fails, ends with the
flag cleared in the command word (is_cmd = 0). -/
theorem C2_counterexample :
    interrupt_cleared bus_always_failing example_hdr lpi_enabled fresh_world = false ∧
    (sensor_irq_do_work bus_always_failing example_hdr lpi_enabled fresh_world).1.is_cmd
      ≠ lpi_enabled.is_cmd ∧
    (sensor_irq_do_work bus_always_failing example_hdr lpi_enabled fresh_world).1.is_cmd
        &&& example_hdr.CM3218_ALS_INT_EN
      ≠ lpi_enabled.is_cmd &&& example_hdr.CM3218_ALS_INT_EN := by
  decide

/-- C2 (amended): for every device state, an interrupt report in which all 10
clear-interrupt writes fail leaves the command word equal to its value before the call
with the interrupt-enable flag cleared (`is_cmd &= ~CM3218_ALS_INT_EN`): the flag is
clear afterwards and the bits of any 16-bit mask disjoint from it are unchanged. -/
theorem C2_interrupt_enable_cleared (b : Bus) (h : Hdr) (lpi : cm3218_info) (w : World)
    (hfail : interrupt_cleared b h lpi w = false) :
    (sensor_irq_do_work b h lpi w).1.is_cmd = bit_clear16 lpi.is_cmd h.CM3218_ALS_INT_EN ∧
    (sensor_irq_do_work b h lpi w).1.is_cmd &&& h.CM3218_ALS_INT_EN = 0 ∧
    (∀ s, s < 65536 → s &&& h.CM3218_ALS_INT_EN = 0 →
      (sensor_irq_do_work b h lpi w).1.is_cmd &&& s = lpi.is_cmd &&& s) := by
  have h1 : (sensor_irq_do_work b h lpi w).1.is_cmd
      = bit_clear16 lpi.is_cmd h.CM3218_ALS_INT_EN := by
    unfold sensor_irq_do_work
    simp only []
    rw [control_and_report_failed b h lpi _ _ w hfail, at_cleared_lpi]
  refine ⟨h1, ?_, ?_⟩
  · rw [h1]
    exact and_bit_clear16_self _ _
  · intro s hs hd
    rw [h1]
    exact and_bit_clear16_other hs hd _

/-- C2 (amended), on a bus where every transfer fails. -/
theorem C2_interrupt_enable_cleared_witness :
    interrupt_cleared bus_always_failing example_hdr lpi_enabled fresh_world = false ∧
    (sensor_irq_do_work bus_always_failing example_hdr lpi_enabled fresh_world).1.is_cmd
      = bit_clear16 lpi_enabled.is_cmd example_hdr.CM3218_ALS_INT_EN :=
  ⟨by decide,
    (C2_interrupt_enable_cleared bus_always_failing example_hdr lpi_enabled fresh_world
      (by decide)).1⟩

/-- C3: for every ADC sample in [0, 65535] the report path computes
`low = floor(adc * 90 / 100)` (the 16-bit cast loses nothing) and
`high = min (floor(adc * 110 / 100)) 65535` (which also survives its 16-bit cast);
adc = 2000 gives (1800, 2200), adc = 60000 gives high = 65535 and adc = 0 gives (0, 0). -/
theorem C3_threshold_window (adc : Nat) (hadc : adc ≤ 65535) :
    low_thd adc = adc * 90 / 100 ∧
    high_thd adc = min (adc * 110 / 100) 65535 ∧
    high_thd adc % 65536 = high_thd adc ∧
    (low_thd 2000, high_thd 2000) = (1800, 2200) ∧
    high_thd 60000 = 65535 ∧
    (low_thd 0, high_thd 0) = (0, 0) := by
  refine ⟨?_, ?_, ?_, by decide, by decide, by decide⟩
  · unfold low_thd CHANGE_SENSITIVITY
    have h1 : adc * (100 - 10) < 2 ^ 32 := by omega
    rw [Nat.mod_eq_of_lt h1]
    have h2 : adc * (100 - 10) / 100 < 2 ^ 16 := by omega
    rw [Nat.mod_eq_of_lt h2]
  · unfold high_thd CHANGE_SENSITIVITY
    have h1 : adc * (100 + 10) < 2 ^ 32 := by omega
    simp only []
    rw [Nat.mod_eq_of_lt h1]
    split <;> omega
  · unfold high_thd
    simp only []
    split <;> omega

/-- C3, at adc = 2000. -/
theorem C3_threshold_window_witness :
    (2000 : Nat) ≤ 65535 ∧ low_thd 2000 = 2000 * 90 / 100 ∧
      high_thd 2000 = min (2000 * 110 / 100) 65535 :=
  ⟨by decide, (C3_threshold_window 2000 (by decide)).1,
    (C3_threshold_window 2000 (by decide)).2.1⟩

/-- C4 fails as stated: with adc = 65535 and resolution = calibration = 2^32 - 1 (both
32-bit unsigned values) the 64-bit product wraps and the computed lux is not
`floor(adc * resolution * calibration / 10^10)`. -/
theorem C4_counterexample :
    (65535 : Nat) ≤ 65535 ∧ (4294967295 : Nat) < 2 ^ 32 ∧
      lux_level 65535 4294967295 4294967295
        ≠ 65535 * 4294967295 * 4294967295 / 10 ^ 10 := by
  decide

/-- C4 (amended): for every ADC sample in [0, 65535] and all 32-bit resolution and
calibration values the stored lux is `floor(((adc * resolution * calibration) mod 2^64)
/ 10^10)` (the 32-bit store never truncates); it is exactly
`floor(adc * resolution * calibration / 10^10)` whenever the product is below 2^64; and
adc = 1000, resolution = 1428, calibration = 2000000 gives 285. -/
theorem C4_lux_level (adc resolution calibration : Nat) (_hadc : adc ≤ 65535)
    (_hres : resolution < 2 ^ 32) (_hcal : calibration < 2 ^ 32) :
    lux_level adc resolution calibration
      = (adc * resolution * calibration) % 2 ^ 64 / 10 ^ 10 ∧
    (adc * resolution * calibration < 2 ^ 64 →
      lux_level adc resolution calibration = adc * resolution * calibration / 10 ^ 10) ∧
    lux_level 1000 1428 2000000 = 285 := by
  have h1 : lux_level adc resolution calibration
      = (adc * resolution * calibration) % 2 ^ 64 / 10 ^ 10 := by
    unfold lux_level
    have hd : 100000 * 100000 % 2 ^ 64 = 10 ^ 10 := by norm_num
    rw [Nat.mod_mul_mod, hd]
    have hlt : (adc * resolution * calibration) % 2 ^ 64 / 10 ^ 10 < 2 ^ 32 := by
      have := Nat.mod_lt (adc * resolution * calibration) (show 0 < 2 ^ 64 by norm_num)
      omega
    rw [Nat.mod_eq_of_lt hlt]
  refine ⟨h1, ?_, by decide⟩
  intro hp
  rw [h1, Nat.mod_eq_of_lt hp]

/-- C4 (amended), at adc = 1000, resolution = 1428, calibration = 2000000. -/
theorem C4_lux_level_witness :
    (1000 : Nat) * 1428 * 2000000 < 2 ^ 64 ∧
      lux_level 1000 1428 2000000 = 1000 * 1428 * 2000000 / 10 ^ 10 :=
  ⟨by decide, (C4_lux_level 1000 1428 2000000 (by decide) (by decide) (by decide)).2.1
    (by decide)⟩

/-- C5: from any state with the shutdown flag set and `als_enable = 0` (the state left by
the probe), after any finite sequence of enable requests, disable requests and interrupt
reports on any bus, the shutdown flag of `is_cmd` is set if and only if `als_enable` is 0.
The shutdown flag is assumed to be a non-zero 16-bit mask disjoint from the
interrupt-enable flag. -/
theorem C5_shutdown_bit_invariant (b : Bus) (h : Hdr) (hsd0 : h.CM3218_ALS_SD ≠ 0)
    (hsd : h.CM3218_ALS_SD < 65536)
    (hdisj : h.CM3218_ALS_SD &&& h.CM3218_ALS_INT_EN = 0) (lpi : cm3218_info) (w : World)
    (hset : shutdown_bit_set h lpi) (hdis : lpi.als_enable = 0) (rs : List Request) :
    shutdown_bit_set h (serve_all b h rs (lpi, w)).1 ↔
      (serve_all b h rs (lpi, w)).1.als_enable = 0 :=
  serve_all_invariant b h hsd0 hsd hdisj rs (lpi, w)
    ⟨fun _ => hdis, fun _ => hset⟩

/-- C5, for a sequence of five requests on a bus whose first two transfers fail. -/
theorem C5_shutdown_bit_invariant_witness :
    (serve_all bus_third_attempt example_hdr example_requests
        (lpi_disabled, fresh_world)).1.als_enable = 1 ∧
    (shutdown_bit_set example_hdr
        (serve_all bus_third_attempt example_hdr example_requests
          (lpi_disabled, fresh_world)).1 ↔
      (serve_all bus_third_attempt example_hdr example_requests
          (lpi_disabled, fresh_world)).1.als_enable = 0) :=
  ⟨by decide,
    C5_shutdown_bit_invariant bus_third_attempt example_hdr (by decide) (by decide)
      (by decide) lpi_disabled fresh_world (by unfold shutdown_bit_set; decide) (by decide)
      example_requests⟩

/-- C6 fails as stated: on a bus where every transfer fails, a first enable request on a
disabled device aborts in the clear-interrupt loop, and the second enable request in a row
again makes 100 bus transfers and returns an error. -/
theorem C6_counterexample :
    (lightsensor_enable bus_always_failing example_hdr
        (lightsensor_enable bus_always_failing example_hdr lpi_disabled fresh_world).2.1
        (lightsensor_enable bus_always_failing example_hdr lpi_disabled fresh_world).2.2).1
      ≠ 0 ∧
    attempts (lightsensor_enable bus_always_failing example_hdr lpi_disabled fresh_world).2.2
      (lightsensor_enable bus_always_failing example_hdr
        (lightsensor_enable bus_always_failing example_hdr lpi_disabled fresh_world).2.1
        (lightsensor_enable bus_always_failing example_hdr lpi_disabled fresh_world).2.2).2.2
      = 100 := by
  decide

/-- C6 (amended): for every starting state and every bus, when an enable request is
followed by a second enable request and the first did not abort in the clear-interrupt
loop (it did not return `-ENOMEM`), the second returns 0 and leaves the device state and
the world (transfer count, trace) as they were; the same holds for two disable requests
in a row. -/
theorem C6_second_request_is_noop (b : Bus) (h : Hdr) (lpi : cm3218_info) (w : World) :
    ((lightsensor_enable b h lpi w).1 ≠ - ENOMEM_errno →
      lightsensor_enable b h (lightsensor_enable b h lpi w).2.1
          (lightsensor_enable b h lpi w).2.2
        = (0, (lightsensor_enable b h lpi w).2.1, (lightsensor_enable b h lpi w).2.2)) ∧
    ((lightsensor_disable b h lpi w).1 ≠ - ENOMEM_errno →
      lightsensor_disable b h (lightsensor_disable b h lpi w).2.1
          (lightsensor_disable b h lpi w).2.2
        = (0, (lightsensor_disable b h lpi w).2.1, (lightsensor_disable b h lpi w).2.2)) := by
  constructor
  · intro hret
    have hen : (lightsensor_enable b h lpi w).2.1.als_enable ≠ 0 := by
      unfold lightsensor_enable at hret ⊢
      by_cases he : lpi.als_enable ≠ 0
      · rw [if_pos he]
        exact he
      · rw [if_neg he] at hret ⊢
        cases hc : interrupt_cleared b h lpi w
        · rw [control_and_report_failed b h lpi _ _ w hc] at hret
          exact absurd rfl hret
        · rw [control_and_report_cleared b h lpi _ _ w hc]
          simp only []
          rw [at_rearm_als_enable, if_pos rfl]
          decide
    generalize lightsensor_enable b h lpi w = r at hen ⊢
    unfold lightsensor_enable
    rw [if_pos hen]
  · intro hret
    have hen : (lightsensor_disable b h lpi w).2.1.als_enable = 0 := by
      unfold lightsensor_disable at hret ⊢
      by_cases he : lpi.als_enable = 0
      · rw [if_pos he]
        exact he
      · rw [if_neg he] at hret ⊢
        cases hc : interrupt_cleared b h lpi w
        · rw [control_and_report_failed b h lpi _ _ w hc] at hret
          exact absurd rfl hret
        · rw [control_and_report_cleared b h lpi _ _ w hc]
          simp only []
          rw [at_rearm_als_enable, if_pos rfl]
    generalize lightsensor_disable b h lpi w = r at hen ⊢
    unfold lightsensor_disable
    rw [if_pos hen]

/-- C6 (amended), for two enable requests on a bus whose third transfer is the first to
succeed. -/
theorem C6_second_request_is_noop_witness :
    (lightsensor_enable bus_third_attempt example_hdr lpi_disabled fresh_world).1
      ≠ - ENOMEM_errno ∧
    lightsensor_enable bus_third_attempt example_hdr
        (lightsensor_enable bus_third_attempt example_hdr lpi_disabled fresh_world).2.1
        (lightsensor_enable bus_third_attempt example_hdr lpi_disabled fresh_world).2.2
      = (0, (lightsensor_enable bus_third_attempt example_hdr lpi_disabled fresh_world).2.1,
          (lightsensor_enable bus_third_attempt example_hdr lpi_disabled fresh_world).2.2) :=
  ⟨by decide,
    (C6_second_request_is_noop bus_third_attempt example_hdr lpi_disabled fresh_world).1
      (by decide)⟩

/-- C7 fails as stated: an enable request on a disabled device, on a bus where transfer 0
(the clear-interrupt write) succeeds, transfers 1 to 10 (the write of the command word
with the shutdown flag cleared) fail and all later transfers succeed, returns 0 and not
`-EIO`. -/
theorem C7_counterexample :
    lpi_disabled.als_enable = 0 ∧
    interrupt_cleared bus_second_operation_fails example_hdr lpi_disabled fresh_world = true ∧
    (_cm3218_I2C_Write_Word bus_second_operation_fails
      (at_cleared bus_second_operation_fails example_hdr lpi_disabled
        fresh_world).1.ALS_cmd_address
      example_hdr.ALS_CMD
      (bit_clear16
        (at_cleared bus_second_operation_fails example_hdr lpi_disabled fresh_world).1.is_cmd
        example_hdr.CM3218_ALS_SD)
      (at_cleared bus_second_operation_fails example_hdr lpi_disabled fresh_world).2).1 < 0 ∧
    (lightsensor_enable bus_second_operation_fails example_hdr lpi_disabled fresh_world).1
      = 0 ∧
    (lightsensor_enable bus_second_operation_fails example_hdr lpi_disabled fresh_world).1
      ≠ - EIO_errno := by
  decide

/-- C7 (amended): for an enable request on a disabled device whose clear-interrupt write
succeeds, if the following write of the command word with the shutdown flag cleared fails,
then `als_enable` is 1 afterwards, and the request returns the outcome of the final
write-back of the command word, which is its last bus activity: 0 when the last transfer
of the call succeeded and `-EIO` when it failed. -/
theorem C7_enable_commits (b : Bus) (h : Hdr) (lpi : cm3218_info) (w : World)
    (hdis : lpi.als_enable = 0) (hc : interrupt_cleared b h lpi w = true)
    (_hwrite : (_cm3218_I2C_Write_Word b (at_cleared b h lpi w).1.ALS_cmd_address h.ALS_CMD
      (bit_clear16 (at_cleared b h lpi w).1.is_cmd h.CM3218_ALS_SD)
      (at_cleared b h lpi w).2).1 < 0) :
    (lightsensor_enable b h lpi w).2.1.als_enable = 1 ∧
    (((lightsensor_enable b h lpi w).1 = 0 ∧
        0 < b.i2c_transfer ((lightsensor_enable b h lpi w).2.2.xfers - 1)) ∨
      ((lightsensor_enable b h lpi w).1 = - EIO_errno ∧
        b.i2c_transfer ((lightsensor_enable b h lpi w).2.2.xfers - 1) ≤ 0)) := by
  have hcall : lightsensor_enable b h lpi w = control_and_report b h lpi CONTROL_ALS 1 w := by
    unfold lightsensor_enable
    rw [if_neg (by simp [hdis])]
  rw [hcall, control_and_report_cleared b h lpi _ _ w hc]
  simp only []
  refine ⟨?_, Write_Word_result b _ _ _ _⟩
  rw [at_rearm_als_enable, if_pos rfl]

/-- C7 (amended), on the bus where only transfers 1 to 10 fail. -/
theorem C7_enable_commits_witness :
    (lightsensor_enable bus_second_operation_fails example_hdr lpi_disabled
      fresh_world).2.1.als_enable = 1 ∧
    (lightsensor_enable bus_second_operation_fails example_hdr lpi_disabled fresh_world).1
      = 0 :=
  ⟨(C7_enable_commits bus_second_operation_fails example_hdr lpi_disabled fresh_world
      (by decide) (by decide) (by decide)).1,
    by decide⟩

/-- C8 fails as stated: on a bus where every transfer fails, a disable request on an
enabled device aborts in the clear-interrupt loop and leaves `als_enable = 1` with the
shutdown flag clear. -/
theorem C8_counterexample :
    lpi_enabled.als_enable = 1 ∧
    (lightsensor_disable bus_always_failing example_hdr lpi_enabled
      fresh_world).2.1.als_enable = 1 ∧
    (lightsensor_disable bus_always_failing example_hdr lpi_enabled
      fresh_world).2.1.is_cmd &&& example_hdr.CM3218_ALS_SD = 0 := by
  decide

/-- C8 (amended): for every state with `als_enable` non-zero, a disable request whose
clear-interrupt loop succeeds ends with `als_enable = 0` and the shutdown flag set in
`is_cmd`; and on every bus a disable request makes no ADC read and no write to the
threshold registers. The shutdown flag is assumed to be a non-zero 16-bit mask and the
threshold registers distinct from the command register. -/
theorem C8_disable (b : Bus) (h : Hdr) (lpi : cm3218_info) (w : World)
    (hsd0 : h.CM3218_ALS_SD ≠ 0) (hsd : h.CM3218_ALS_SD < 65536)
    (hhw : h.ALS_CMD % 256 ≠ h.ALS_HW % 256) (hlw : h.ALS_CMD % 256 ≠ h.ALS_LW % 256)
    (hen : lpi.als_enable ≠ 0) :
    (interrupt_cleared b h lpi w = true →
      (lightsensor_disable b h lpi w).2.1.als_enable = 0 ∧
        shutdown_bit_set h (lightsensor_disable b h lpi w).2.1) ∧
    (∀ e ∈ newEvents w (lightsensor_disable b h lpi w).2.2,
      Event.is_adc_read h e = false ∧ Event.is_threshold_write h e = false) := by
  have hcall : lightsensor_disable b h lpi w = control_and_report b h lpi CONTROL_ALS 0 w := by
    unfold lightsensor_disable
    rw [if_neg hen]
  rw [hcall]
  constructor
  · intro hc
    rw [control_and_report_cleared b h lpi _ _ w hc]
    simp only []
    have hd : (at_readout b h lpi CONTROL_ALS 0 w).1.als_enable = 0 := by
      rw [at_readout_lpi]
      rfl
    have h2 : at_rearm b h lpi CONTROL_ALS 0 w = at_readout b h lpi CONTROL_ALS 0 w := by
      unfold at_rearm
      rw [report_stage_disabled b h _ _ hd]
    rw [h2]
    refine ⟨hd, ?_⟩
    unfold shutdown_bit_set
    rw [at_readout_lpi]
    show bit_or16 _ h.CM3218_ALS_SD &&& h.CM3218_ALS_SD ≠ 0
    rw [and_bit_or16_self hsd]
    exact hsd0
  · intro e he
    have hq := (quiet_control_and_report_disable b h lpi w).forall_new e he
    exact ⟨quiet_not_adc_read h e hq, quiet_not_threshold_write h hhw hlw e hq⟩

/-- C8 (amended), for a disable request on a bus whose third transfer is the first to
succeed. -/
theorem C8_disable_witness :
    interrupt_cleared bus_third_attempt example_hdr lpi_enabled fresh_world = true ∧
    (lightsensor_disable bus_third_attempt example_hdr lpi_enabled
      fresh_world).2.1.als_enable = 0 :=
  ⟨by decide,
    ((C8_disable bus_third_attempt example_hdr lpi_enabled fresh_world (by decide)
      (by decide) (by decide) (by decide) (by decide)).1 (by decide)).1⟩

/-- C9: for every device state and every mode of `control_and_report`, if all 10
clear-interrupt writes fail then `record_clear_int_fail` is set afterwards (non-zero, and
1 when it held 0 or 1 before), the run makes no ADC read, no threshold-register write and
no report to the input subsystem, and `als_enable`, `current_adc` and `current_lux_level`
are unchanged. The threshold registers are assumed distinct from the command register. -/
theorem C9_clear_failure_aborts (b : Bus) (h : Hdr) (lpi : cm3218_info)
    (mode cmd_enable : Nat) (w : World)
    (hhw : h.ALS_CMD % 256 ≠ h.ALS_HW % 256) (hlw : h.ALS_CMD % 256 ≠ h.ALS_LW % 256)
    (hfail : interrupt_cleared b h lpi w = false) :
    (control_and_report b h lpi mode cmd_enable w).2.1.record_clear_int_fail ≠ 0 ∧
    (lpi.record_clear_int_fail ≤ 1 →
      (control_and_report b h lpi mode cmd_enable w).2.1.record_clear_int_fail = 1) ∧
    (∀ e ∈ newEvents w (control_and_report b h lpi mode cmd_enable w).2.2,
      Event.is_adc_read h e = false ∧ Event.is_threshold_write h e = false ∧
        Event.is_input_report e = false) ∧
    (control_and_report b h lpi mode cmd_enable w).2.1.als_enable = lpi.als_enable ∧
    (control_and_report b h lpi mode cmd_enable w).2.1.current_adc = lpi.current_adc ∧
    (control_and_report b h lpi mode cmd_enable w).2.1.current_lux_level
      = lpi.current_lux_level := by
  rw [control_and_report_failed b h lpi mode cmd_enable w hfail]
  simp only []
  rw [at_cleared_lpi, hfail]
  refine ⟨?_, ?_, ?_, rfl, rfl, rfl⟩
  · show (if false = true then lpi.record_clear_int_fail
      else if lpi.record_clear_int_fail = 0 then 1 else lpi.record_clear_int_fail) ≠ 0
    by_cases h0 : lpi.record_clear_int_fail = 0
    · simp [h0]
    · simp [h0]
  · intro hle
    show (if false = true then lpi.record_clear_int_fail
      else if lpi.record_clear_int_fail = 0 then 1 else lpi.record_clear_int_fail) = 1
    by_cases h0 : lpi.record_clear_int_fail = 0
    · simp [h0]
    · simp [h0]
      omega
  · intro e he
    have hq := (follows_at_cleared b h lpi w).forall_new e he
    exact ⟨quiet_not_adc_read h e hq, quiet_not_threshold_write h hhw hlw e hq,
      quiet_not_input_report h e hq⟩

/-- C9, for an enable request on a bus where every transfer fails. -/
theorem C9_clear_failure_aborts_witness :
    interrupt_cleared bus_always_failing example_hdr lpi_disabled fresh_world = false ∧
    (control_and_report bus_always_failing example_hdr lpi_disabled CONTROL_ALS 1
      fresh_world).2.1.record_clear_int_fail = 1 :=
  ⟨by decide,
    (C9_clear_failure_aborts bus_always_failing example_hdr lpi_disabled CONTROL_ALS 1
      fresh_world (by decide) (by decide) (by decide)).2.1 (by decide)⟩

/-- C10: each of the three transport operations (`I2C_RxData2`, `I2C_RxData`,
`I2C_TxData`) makes exactly 10 transfer attempts and returns `-EIO` when every transfer
fails; makes exactly `k` attempts and returns 0 when the first successful transfer is
attempt `k` (1 ≤ k ≤ 10); and its whole outcome is the same on any bus that differs only
in the levels sampled on the interrupt line. -/
theorem C10_transport_retry_budget (b : Bus) (w : World) (slaveAddr cmd length : Nat)
    (rxData txData : List Nat) :
    ((∀ i, i < I2C_RETRY_COUNT → b.i2c_transfer (w.xfers + i) ≤ 0) →
      ((I2C_RxData2 b slaveAddr rxData length w).1 = - EIO_errno ∧
        attempts w (I2C_RxData2 b slaveAddr rxData length w).2.2 = 10) ∧
      ((I2C_RxData b slaveAddr cmd rxData length w).1 = - EIO_errno ∧
        attempts w (I2C_RxData b slaveAddr cmd rxData length w).2.2 = 10) ∧
      ((I2C_TxData b slaveAddr txData w).1 = - EIO_errno ∧
        attempts w (I2C_TxData b slaveAddr txData w).2 = 10)) ∧
    (∀ k, 1 ≤ k → k ≤ I2C_RETRY_COUNT →
      (∀ i, i + 1 < k → b.i2c_transfer (w.xfers + i) ≤ 0) →
      0 < b.i2c_transfer (w.xfers + (k - 1)) →
      ((I2C_RxData2 b slaveAddr rxData length w).1 = 0 ∧
        attempts w (I2C_RxData2 b slaveAddr rxData length w).2.2 = k) ∧
      ((I2C_RxData b slaveAddr cmd rxData length w).1 = 0 ∧
        attempts w (I2C_RxData b slaveAddr cmd rxData length w).2.2 = k) ∧
      ((I2C_TxData b slaveAddr txData w).1 = 0 ∧
        attempts w (I2C_TxData b slaveAddr txData w).2 = k)) ∧
    (∀ b' : Bus, b'.i2c_transfer = b.i2c_transfer → b'.rx_data = b.rx_data →
      I2C_RxData2 b' slaveAddr rxData length w = I2C_RxData2 b slaveAddr rxData length w ∧
      I2C_RxData b' slaveAddr cmd rxData length w = I2C_RxData b slaveAddr cmd rxData length w ∧
      I2C_TxData b' slaveAddr txData w = I2C_TxData b slaveAddr txData w) := by
  refine ⟨?_, ?_, ?_⟩
  · intro hf
    have hl := fun m => i2c_retry_loop_all_fail b m 10 0 w hf
    simp only [I2C_RxData2, I2C_RxData, I2C_TxData, attempts, I2C_RETRY_COUNT]
    simp [hl]
  · intro k hk1 hk10 hf hs
    have hl := fun m => i2c_retry_loop_first_success b m 10 (k - 1) 0 w
      (by simp only [I2C_RETRY_COUNT] at hk10 ⊢; omega)
      (by intro i hi; exact hf i (by omega)) hs
    have hk : ¬ (10 ≤ k - 1) := by simp only [I2C_RETRY_COUNT] at hk10; omega
    have hk' : w.xfers + (k - 1) + 1 - w.xfers = k := by omega
    simp only [I2C_RxData2, I2C_RxData, I2C_TxData, attempts, I2C_RETRY_COUNT]
    simp [hl, hk, hk']
  · intro b' hb hrx
    have hl := fun m => i2c_retry_loop_gpio_irrelevant b b' m hb 10 0 w
    simp only [I2C_RxData2, I2C_RxData, I2C_TxData, I2C_RETRY_COUNT, hl, rx_bytes, hrx]
    simp

/-- C10, at concrete inputs: on a bus that always fails a write makes 10 attempts and
returns `-EIO`; on a bus whose third transfer is the first to succeed a read makes 3
attempts and returns 0. -/
theorem C10_transport_retry_budget_witness :
    ((I2C_TxData bus_always_failing 0x48 [0, 1, 0] fresh_world).1 = - EIO_errno ∧
      attempts fresh_world (I2C_TxData bus_always_failing 0x48 [0, 1, 0] fresh_world).2 = 10) ∧
    ((I2C_RxData bus_third_attempt 0x48 4 [0, 0] 2 fresh_world).1 = 0 ∧
      attempts fresh_world (I2C_RxData bus_third_attempt 0x48 4 [0, 0] 2 fresh_world).2.2
        = 3) :=
  ⟨((C10_transport_retry_budget bus_always_failing fresh_world 0x48 4 2 [0, 0] [0, 1, 0]).1
      (by intro i _; simp [bus_always_failing])).2.2,
    ((C10_transport_retry_budget bus_third_attempt fresh_world 0x48 4 2 [0, 0] [0, 1, 0]).2.1
      3 (by decide) (by decide)
      (by intro i hi; have h2 : i < 2 := by omega
          simp [bus_third_attempt, fresh_world, h2])
      (by decide)).2.1⟩

/-- C11: for every ADC sample in [0, 65535] the threshold window of the report path
satisfies `low ≤ adc ≤ high` and `low ≤ high ≤ 65535`, clamped or not; the clamp to 65535
takes effect (the unclamped value exceeds 65535, and `high_thd` differs from it) exactly
when `adc ≥ 59579`. -/
theorem C11_window_contains_sample (adc : Nat) (hadc : adc ≤ 65535) :
    low_thd adc ≤ adc ∧ adc ≤ high_thd adc ∧
    low_thd adc ≤ high_thd adc ∧ high_thd adc ≤ 65535 ∧
    (high_thd_unclamped adc > 65535 ↔ 59579 ≤ adc) ∧
    (high_thd adc ≠ high_thd_unclamped adc ↔ 59579 ≤ adc) := by
  have hlow : low_thd adc = adc * 90 / 100 := by
    unfold low_thd CHANGE_SENSITIVITY
    have h1 : adc * (100 - 10) < 2 ^ 32 := by omega
    rw [Nat.mod_eq_of_lt h1]
    have h2 : adc * (100 - 10) / 100 < 2 ^ 16 := by omega
    rw [Nat.mod_eq_of_lt h2]
  have hraw : high_thd_unclamped adc = adc * 110 / 100 := by
    unfold high_thd_unclamped CHANGE_SENSITIVITY
    have h1 : adc * (100 + 10) < 2 ^ 32 := by omega
    rw [Nat.mod_eq_of_lt h1]
  have hhigh : high_thd adc
      = if high_thd_unclamped adc > 65535 then 65535 else high_thd_unclamped adc := rfl
  rw [hhigh, hlow, hraw]
  refine ⟨by omega, ?_, ?_, ?_, by omega, ?_⟩
  · split <;> omega
  · split <;> omega
  · split <;> omega
  · split <;> omega

/-- C11, at the first clamped sample adc = 59579 and the last unclamped one adc = 59578. -/
theorem C11_window_contains_sample_witness :
    (59579 : Nat) ≤ 65535 ∧ low_thd 59579 ≤ 59579 ∧ 59579 ≤ high_thd 59579 ∧
      high_thd_unclamped 59579 > 65535 ∧ ¬ (high_thd_unclamped 59578 > 65535) :=
  ⟨by decide, (C11_window_contains_sample 59579 (by decide)).1,
    (C11_window_contains_sample 59579 (by decide)).2.1,
    (C11_window_contains_sample 59579 (by decide)).2.2.2.2.1.mpr (by decide),
    fun hgt => absurd ((C11_window_contains_sample 59578 (by decide)).2.2.2.2.1.mp hgt)
      (by decide)⟩

/-- C12 fails as stated: with resolution = calibration = 2^32 - 1 (both 32-bit unsigned
values) the 64-bit product wraps, and the lux computed for adc = 1 (1844674406) is larger
than the lux computed for adc = 2 (1844674405). -/
theorem C12_counterexample :
    (1 : Nat) ≤ 2 ∧ (2 : Nat) ≤ 65535 ∧ (4294967295 : Nat) < 2 ^ 32 ∧
      lux_level 1 4294967295 4294967295 = 1844674406 ∧
      lux_level 2 4294967295 4294967295 = 1844674405 ∧
      ¬ (lux_level 1 4294967295 4294967295 ≤ lux_level 2 4294967295 4294967295) := by
  decide

/-- C12 (amended): for all 32-bit resolution and calibration values and all
`adc1 ≤ adc2` in [0, 65535] such that `adc2 * resolution * calibration` is below 2^64 (the
64-bit product does not wrap), the lux computed for `adc1` (the expression of lines 492
and 947) is at most the lux computed for `adc2`. -/
theorem C12_lux_monotone (adc1 adc2 resolution calibration : Nat) (hle : adc1 ≤ adc2)
    (_hadc : adc2 ≤ 65535) (_hres : resolution < 2 ^ 32) (_hcal : calibration < 2 ^ 32)
    (hp : adc2 * resolution * calibration < 2 ^ 64) :
    lux_level adc1 resolution calibration ≤ lux_level adc2 resolution calibration :=
  lux_level_mono adc1 adc2 resolution calibration hle hp

/-- C12 (amended), at adc1 = 1000, adc2 = 2000 with the values installed by the probe. -/
theorem C12_lux_monotone_witness :
    (2000 : Nat) * 1428 * 2000000 < 2 ^ 64 ∧
      lux_level 1000 1428 2000000 ≤ lux_level 2000 1428 2000000 :=
  ⟨by decide, C12_lux_monotone 1000 2000 1428 2000000 (by decide) (by decide) (by decide)
    (by decide) (by decide)⟩

/-- C13 fails as stated: on a bus where every transfer fails, the enable request that
exhausts the clear-interrupt loop returns -12 (`-ENOMEM`), not the `-EIO` (-5) that a
register write returns on the same bus. -/
theorem C13_counterexample :
    interrupt_cleared bus_always_failing example_hdr lpi_disabled fresh_world = false ∧
    (lightsensor_enable bus_always_failing example_hdr lpi_disabled fresh_world).1 = -12 ∧
    (lightsensor_enable bus_always_failing example_hdr lpi_disabled fresh_world).1
      ≠ - EIO_errno ∧
    (_cm3218_I2C_Write_Word bus_always_failing 0x48 0 0 fresh_world).1 = - EIO_errno := by
  decide

/-- C13 (amended): when the clear-interrupt loop exhausts its 10 iterations,
`control_and_report` returns `-ENOMEM` in every mode, so an enable request on a disabled
device and a disable request on an enabled device return `-ENOMEM`, a code different from
the `-EIO` of the transport; the interrupt work `sensor_irq_do_work` returns nothing and
drops that code. -/
theorem C13_clear_failure_code (b : Bus) (h : Hdr) (lpi : cm3218_info) (w : World)
    (hfail : interrupt_cleared b h lpi w = false) :
    (∀ mode cmd_enable, (control_and_report b h lpi mode cmd_enable w).1 = - ENOMEM_errno) ∧
    (lpi.als_enable = 0 → (lightsensor_enable b h lpi w).1 = - ENOMEM_errno) ∧
    (lpi.als_enable ≠ 0 → (lightsensor_disable b h lpi w).1 = - ENOMEM_errno) ∧
    - ENOMEM_errno ≠ - EIO_errno := by
  have hall : ∀ mode cmd_enable,
      (control_and_report b h lpi mode cmd_enable w).1 = - ENOMEM_errno := by
    intro mode cmd_enable
    rw [control_and_report_failed b h lpi mode cmd_enable w hfail]
  refine ⟨hall, ?_, ?_, by decide⟩
  · intro hdis
    unfold lightsensor_enable
    rw [if_neg (by simp [hdis])]
    exact hall _ _
  · intro hen
    unfold lightsensor_disable
    rw [if_neg hen]
    exact hall _ _

/-- C13 (amended), for a disable request on a bus where every transfer fails. -/
theorem C13_clear_failure_code_witness :
    interrupt_cleared bus_always_failing example_hdr lpi_enabled fresh_world = false ∧
    lpi_enabled.als_enable ≠ 0 ∧
    (lightsensor_disable bus_always_failing example_hdr lpi_enabled fresh_world).1
      = - ENOMEM_errno :=
  ⟨by decide, by decide,
    (C13_clear_failure_code bus_always_failing example_hdr lpi_enabled fresh_world
      (by decide)).2.2.1 (by decide)⟩

/-- C14: with the resolution 1428 that the probe installs, for every ADC sample in
[0, 65535] and every 32-bit calibration value the product `adc * 1428 * calibration` is
below 2^64, its quotient by 10^10 is below 2^32, the stored lux is exactly
`floor(adc * 1428 * calibration / 10^10)`, and the lux of any smaller sample is not
larger. -/
theorem C14_probe_resolution_lux (adc calibration : Nat) (hadc : adc ≤ 65535)
    (hcal : calibration < 2 ^ 32) :
    adc * cm3218_probe_als_resolution * calibration < 2 ^ 64 ∧
    adc * cm3218_probe_als_resolution * calibration / 10 ^ 10 < 2 ^ 32 ∧
    lux_level adc cm3218_probe_als_resolution calibration
      = adc * cm3218_probe_als_resolution * calibration / 10 ^ 10 ∧
    (∀ adc', adc' ≤ adc →
      lux_level adc' cm3218_probe_als_resolution calibration
        ≤ lux_level adc cm3218_probe_als_resolution calibration) := by
  have hb := probe_resolution_no_wrap adc calibration hadc hcal
  have hp : adc * cm3218_probe_als_resolution * calibration < 2 ^ 64 :=
    lt_of_le_of_lt hb (by norm_num)
  refine ⟨hp, ?_, lux_level_exact _ _ _ hp, ?_⟩
  · have : adc * cm3218_probe_als_resolution * calibration / 10 ^ 10
        ≤ 65535 * 1428 * 4294967295 / 10 ^ 10 := Nat.div_le_div_right hb
    exact lt_of_le_of_lt this (by norm_num)
  · intro adc' hle
    exact lux_level_mono adc' adc _ calibration hle hp

/-- C14, at the largest sample and the largest calibration value. -/
theorem C14_probe_resolution_lux_witness :
    (65535 : Nat) ≤ 65535 ∧ (4294967295 : Nat) < 2 ^ 32 ∧
      lux_level 65535 cm3218_probe_als_resolution 4294967295
        = 65535 * cm3218_probe_als_resolution * 4294967295 / 10 ^ 10 :=
  ⟨by decide, by decide,
    (C14_probe_resolution_lux 65535 4294967295 (by decide) (by decide)).2.2.1⟩

end CM3218
